import Mathlib

/-!
AlphaClassBot: role-scoped data access, notification state and chat persistence.

A shallow embedding of the request handlers of `src/index.tsx`.  The durable
store (Cloudflare D1 / SQLite) is a record of tables, each table a list of rows
in insertion order.  A handler is a function from the decoded JWT payload, the
request parameters and the store to a response (and, for the mutating
handlers, the store afterwards).  SQL statements are embedded clause by
clause: `FROM`/`JOIN` build the row list, `WHERE` filters it, `ORDER BY` sorts
it, and the `SELECT` list projects it.

Values of the text columns and the text parameters bound to a statement are
`String`s, compared as SQLite compares TEXT under its default BINARY
collation: lexicographically by code point.

The table declarations are not part of the sources; a row carries the columns
the statements of `index.tsx` name.  A statement always runs: an unavailable
store and constraints declared on the tables are outside the model.  The
exceptions a handler sees are a throwing `AI.run`, the call of `c.jwt.sign` on
a context that has no `jwt`, and a `LIMIT` bound to a value that is no 64-bit
integer.  The instants read by `datetime('now')` and `new Date()`, the outcome
of `AI.run` and the builtin `parseInt` are parameters of the handlers.
-/

namespace AlphaClassBot

/-! ## Data model -/

/-- The role type `UserRole` of `index.tsx`. -/
inductive UserRole where
  | student
  | teacher
  | admin
  deriving DecidableEq, Repr

/-- The interface `JWTPayload`: the principal decoded from the bearer token. -/
structure JWTPayload where
  userId : Nat
  email : String
  role : UserRole
  institutionId : Option Nat
  deriving DecidableEq, Repr

/-- A row of `users`, with the columns the handlers read. -/
structure User where
  id : Nat
  name : String
  email : String
  role : UserRole
  phone : Option String
  timezone : Option String
  is_active : Nat
  deriving DecidableEq, Repr

/-- A row of `user_institutions`, with the columns the handlers read. -/
structure UserInstitution where
  user_id : Nat
  institution_id : Option Nat
  role_in_institution : Option String
  deriving DecidableEq, Repr

/-- A row of `subjects`. -/
structure Subject where
  id : Nat
  code : String
  name : String
  credits : Option Nat
  department : Option String
  deriving DecidableEq, Repr

/-- A row of `classes`. -/
structure Class where
  id : Nat
  section_name : String
  room : Option String
  schedule_pattern : Option String
  max_students : Option Nat
  subject_id : Nat
  teacher_id : Nat
  is_active : Nat
  deriving DecidableEq, Repr

/-- A row of `enrollments`; `status` is free text, only `'active'` is tested. -/
structure Enrollment where
  student_id : Nat
  class_id : Nat
  status : String
  deriving DecidableEq, Repr

/-- A row of `schedule_events`; the class reference may be NULL. -/
structure ScheduleEvent where
  id : Nat
  title : String
  description : Option String
  event_type : String
  start_datetime : String
  end_datetime : String
  location : Option String
  is_cancelled : Nat
  class_id : Option Nat
  creator_id : Nat
  deriving DecidableEq, Repr

/-- A row of `notifications`. -/
structure Notification where
  id : Nat
  user_id : Nat
  title : String
  message : String
  type : String
  priority : String
  is_read : Nat
  read_at : Option String
  action_url : Option String
  created_at : String
  deriving DecidableEq, Repr

/-- A row of `chat_conversations`. -/
structure Conversation where
  id : Nat
  user_id : Nat
  title : String
  context : String
  deriving DecidableEq, Repr

/-- A row of `chat_messages`, with the columns the handler inserts. -/
structure ChatMessage where
  conversation_id : Nat
  sender_type : String
  message : String
  message_type : String
  deriving DecidableEq, Repr

/-- The database `DB`: one list of rows per table. -/
structure Store where
  users : List User
  user_institutions : List UserInstitution
  subjects : List Subject
  classes : List Class
  enrollments : List Enrollment
  schedule_events : List ScheduleEvent
  notifications : List Notification
  chat_conversations : List Conversation
  chat_messages : List ChatMessage
  deriving DecidableEq, Repr

/-! ## GET /api/schedule -/

/-- The query parameters `startDate` and `endDate` of `c.req.query()`;
`none` when the parameter is not given. -/
structure ScheduleQuery where
  startDate : Option String
  endDate : Option String
  deriving DecidableEq, Repr

/-- JavaScript truthiness of an optional string, as in `if (startDate)`:
`undefined` and the empty string are falsy. -/
def truthy : Option String → Bool
  | none => false
  | some s => s != ""

/-- A row of `schedule_events se LEFT JOIN classes c LEFT JOIN subjects s`,
before projection. -/
structure JoinedEvent where
  se : ScheduleEvent
  c : Option Class
  s : Option Subject
  deriving DecidableEq, Repr

/-- `x LEFT JOIN t ON p`: every matching row of `t`, or a single NULL row when
none matches. -/
def leftJoin {α : Type} (t : List α) (p : α → Bool) : List (Option α) :=
  match t.filter p with
  | [] => [none]
  | m :: ms => (m :: ms).map some

/-- `LEFT JOIN subjects s ON c.subject_id = s.id`; a NULL class joins no
subject. -/
def joinSubjects (st : Store) : Option Class → List (Option Subject)
  | none => [none]
  | some c => leftJoin st.subjects (fun s => c.subject_id == s.id)

/-- The `FROM` clause of the schedule query. -/
def scheduleFrom (st : Store) : List JoinedEvent :=
  st.schedule_events.flatMap fun se =>
    (leftJoin st.classes (fun c => se.class_id == some c.id)).flatMap fun c =>
      (joinSubjects st c).map fun s => JoinedEvent.mk se c s

/-- `se.class_id IN (SELECT e.class_id FROM enrollments e
WHERE e.student_id = ? AND e.status = 'active')`. -/
def studentScope (st : Store) (userId : Nat) (se : ScheduleEvent) : Bool :=
  st.enrollments.any fun e =>
    e.student_id == userId && e.status == "active" && se.class_id == some e.class_id

/-- `(se.creator_id = ? OR se.class_id IN (SELECT id FROM classes
WHERE teacher_id = ?))`. -/
def teacherScope (st : Store) (userId : Nat) (se : ScheduleEvent) : Bool :=
  se.creator_id == userId ||
    st.classes.any fun c => c.teacher_id == userId && se.class_id == some c.id

/-- The role branch appended to `WHERE 1=1`; no clause for an admin. -/
def roleScope (st : Store) (p : JWTPayload) (se : ScheduleEvent) : Bool :=
  match p.role with
  | UserRole.student => studentScope st p.userId se
  | UserRole.teacher => teacherScope st p.userId se
  | UserRole.admin => true

/-- The comparison `a <= b` of two TEXT values under the BINARY collation:
lexicographic by code point, a proper prefix sorting first. -/
def textLe (a b : String) : Bool :=
  decide (a.toList ≤ b.toList)

/-- `AND se.start_datetime >= ?`, appended only when `startDate` is truthy. -/
def startBound (q : ScheduleQuery) (se : ScheduleEvent) : Bool :=
  match q.startDate with
  | none => true
  | some d => if truthy (some d) then textLe d se.start_datetime else true

/-- `AND se.start_datetime <= ?`, appended only when `endDate` is truthy. -/
def endBound (q : ScheduleQuery) (se : ScheduleEvent) : Bool :=
  match q.endDate with
  | none => true
  | some d => if truthy (some d) then textLe se.start_datetime d else true

/-- The assembled `WHERE` clause. -/
def scheduleWhere (st : Store) (p : JWTPayload) (q : ScheduleQuery) (r : JoinedEvent) : Bool :=
  roleScope st p r.se && startBound q r.se && endBound q r.se

/-- `ORDER BY se.start_datetime ASC`. -/
def orderByStart (rows : List JoinedEvent) : List JoinedEvent :=
  rows.insertionSort fun a b => textLe a.se.start_datetime b.se.start_datetime = true

/-- The rows the assembled statement selects, before projection. -/
def scheduleRows (st : Store) (p : JWTPayload) (q : ScheduleQuery) : List JoinedEvent :=
  orderByStart ((scheduleFrom st).filter (scheduleWhere st p q))

/-- A row of the `SELECT` list of the schedule query. -/
structure EventView where
  id : Nat
  title : String
  description : Option String
  event_type : String
  start_datetime : String
  end_datetime : String
  location : Option String
  is_cancelled : Nat
  section_name : Option String
  subject_code : Option String
  subject_name : Option String
  deriving DecidableEq, Repr

/-- The `SELECT` list of the schedule query. -/
def selectEvent (r : JoinedEvent) : EventView :=
  { id := r.se.id
    title := r.se.title
    description := r.se.description
    event_type := r.se.event_type
    start_datetime := r.se.start_datetime
    end_datetime := r.se.end_datetime
    location := r.se.location
    is_cancelled := r.se.is_cancelled
    section_name := r.c.map fun c => c.section_name
    subject_code := r.s.map fun s => s.code
    subject_name := r.s.map fun s => s.name }

/-- The handler of `GET /api/schedule`: the `events` array of the response. -/
def getSchedule (st : Store) (p : JWTPayload) (q : ScheduleQuery) : List EventView :=
  (scheduleRows st p q).map selectEvent

/-- Event `e` appears in the schedule result: a selected row stems from it. -/
def appearsInSchedule (st : Store) (p : JWTPayload) (q : ScheduleQuery) (e : ScheduleEvent) : Prop :=
  ∃ r ∈ scheduleRows st p q, r.se = e

/-- The start of `e` passes the supplied date bounds. -/
def passesBounds (q : ScheduleQuery) (e : ScheduleEvent) : Prop :=
  startBound q e = true ∧ endBound q e = true

/-! ## PUT /api/notifications/:id/read -/

/-- The response of the read transition: `{ success: true }`, or the 500 of
the `catch` block. -/
inductive ReadResponse where
  | success
  | failed
  deriving DecidableEq, Repr

/-- The `WHERE id = ? AND user_id = ?` clause of the `UPDATE`.  The path
parameter is bound as text; `notificationId` is the integer it denotes under
the INTEGER affinity of the `id` column, `none` when it denotes no integer (and
so equals no id). -/
def readTarget (notificationId : Option Nat) (p : JWTPayload) (n : Notification) : Bool :=
  notificationId == some n.id && n.user_id == p.userId

/-- `SET is_read = 1, read_at = datetime('now')` on one row; `now` is the text
that `datetime('now')` yields when the statement runs. -/
def setRead (now : String) (n : Notification) : Notification :=
  { n with is_read := 1, read_at := some now }

/-- The handler of `PUT /api/notifications/:id/read`: run the `UPDATE`, then
answer `{ success: true }` whatever the number of rows changed. -/
def markNotificationRead (now : String) (notificationId : Option Nat) (p : JWTPayload)
    (st : Store) : ReadResponse × Store :=
  (ReadResponse.success,
    { st with
      notifications := st.notifications.map fun n =>
        if readTarget notificationId p n then setRead now n else n })

/-! ## POST /api/chat -/

/-- The JSON body of a chat request.  `conversationId` is `none` when the
field is absent. -/
structure ChatRequest where
  message : String
  conversationId : Option Nat
  deriving DecidableEq, Repr

/-- The responses of the chat handler: the 200 with `response` and
`conversationId`, the 400 `Message is required`, and the 500 `Chat failed` of
the `catch` block. -/
inductive ChatResponse where
  | ok (response : String) (conversationId : Nat)
  | messageRequired
  | chatFailed
  deriving DecidableEq, Repr

/-- The id the store assigns to a row inserted without one: one more than the
largest id in the table. -/
def nextId (ids : List Nat) : Nat :=
  ids.foldr max 0 + 1

/-- The number of UTF-16 code units of a character: two for a character
outside the Basic Multilingual Plane, one otherwise. -/
def utf16Units (c : Char) : Nat :=
  if c.toNat < 65536 then 1 else 2

/-- The characters that lie within the first `n` UTF-16 code units of a text,
as `substring(0, n)` cuts it.  When the bound falls inside a surrogate pair,
JavaScript keeps the first half of the pair, which is no character; the result
here ends before that pair. -/
def takeUtf16 : Nat → List Char → List Char
  | _, [] => []
  | n, c :: cs => if utf16Units c ≤ n then c :: takeUtf16 (n - utf16Units c) cs else []

/-- The title of a new conversation: `message.substring(0, 50) + '...'`. -/
def conversationTitle (message : String) : String :=
  String.mk (takeUtf16 50 message.toList) ++ "..."

/-- The context of a new conversation:
`JSON.stringify({ timestamp: new Date().toISOString() })`. -/
def conversationContext (nowIso : String) : String :=
  "\x7b\"timestamp\":\"" ++ nowIso ++ "\"\x7d"

/-- `let convId = conversationId; if (!convId) { INSERT INTO chat_conversations
... RETURNING id }`: an absent id and the falsy id `0` both open a new
conversation owned by the principal; any other id is used as supplied. -/
def resolveConversation (nowIso : String) (p : JWTPayload) (req : ChatRequest) (st : Store) :
    Nat × Store :=
  match req.conversationId with
  | some (k + 1) => (k + 1, st)
  | _ =>
    let newId := nextId (st.chat_conversations.map fun c => c.id)
    (newId,
      { st with
        chat_conversations := st.chat_conversations ++
          [{ id := newId, user_id := p.userId, title := conversationTitle req.message,
             context := conversationContext nowIso }] })

/-- `INSERT INTO chat_messages (conversation_id, sender_type, message,
message_type) VALUES (?, sender, ?, 'text')`. -/
def insertMessage (convId : Nat) (sender : String) (body : String) (st : Store) : Store :=
  { st with
    chat_messages := st.chat_messages ++
      [{ conversation_id := convId, sender_type := sender, message := body,
         message_type := "text" }] }

/-- The handler of `POST /api/chat`.  `ai` is the outcome of `c.env.AI.run` for
this request: `none` when the call throws, `some r` when it returns the text
`r`.  The handler checks the message, calls the model, and only then resolves
the conversation and inserts the user's and the assistant's message; an
exception anywhere is answered with the 500. -/
def postChat (nowIso : String) (ai : Option String) (p : JWTPayload) (req : ChatRequest)
    (st : Store) : ChatResponse × Store :=
  if req.message = "" then (ChatResponse.messageRequired, st)
  else
    match ai with
    | none => (ChatResponse.chatFailed, st)
    | some r =>
      let (convId, st1) := resolveConversation nowIso p req st
      let st2 := insertMessage convId "user" req.message st1
      let st3 := insertMessage convId "assistant" r st2
      (ChatResponse.ok r convId, st3)

/-! ## GET /api/classes -/

/-- A row of `classes c JOIN subjects s JOIN users u`, before projection. -/
structure JoinedClass where
  c : Class
  s : Subject
  u : User
  deriving DecidableEq, Repr

/-- The `FROM` clause of the class query: `classes c JOIN subjects s ON
c.subject_id = s.id JOIN users u ON c.teacher_id = u.id`. -/
def classesFrom (st : Store) : List JoinedClass :=
  st.classes.flatMap fun c =>
    (st.subjects.filter fun s => c.subject_id == s.id).flatMap fun s =>
      (st.users.filter fun u => c.teacher_id == u.id).map fun u => JoinedClass.mk c s u

/-- The role branch of the class query: `c.id IN (SELECT class_id FROM
enrollments WHERE student_id = ? AND status = 'active')` for a student,
`c.teacher_id = ?` for a teacher, no clause for an admin. -/
def classScope (st : Store) (p : JWTPayload) (c : Class) : Bool :=
  match p.role with
  | UserRole.student =>
    st.enrollments.any fun e =>
      e.student_id == p.userId && e.status == "active" && c.id == e.class_id
  | UserRole.teacher => c.teacher_id == p.userId
  | UserRole.admin => true

/-- The assembled `WHERE` clause of the class query: `c.is_active = 1` and the
role branch. -/
def classesWhere (st : Store) (p : JWTPayload) (r : JoinedClass) : Bool :=
  r.c.is_active == 1 && classScope st p r.c

/-- The rows the class statement selects, before projection. -/
def classRows (st : Store) (p : JWTPayload) : List JoinedClass :=
  (classesFrom st).filter (classesWhere st p)

/-- A row of the `SELECT` list of the class query. -/
structure ClassView where
  id : Nat
  section_name : String
  room : Option String
  schedule_pattern : Option String
  max_students : Option Nat
  subject_code : String
  subject_name : String
  credits : Option Nat
  department : Option String
  teacher_name : String
  teacher_email : String
  deriving DecidableEq, Repr

/-- The `SELECT` list of the class query. -/
def selectClass (r : JoinedClass) : ClassView :=
  { id := r.c.id
    section_name := r.c.section_name
    room := r.c.room
    schedule_pattern := r.c.schedule_pattern
    max_students := r.c.max_students
    subject_code := r.s.code
    subject_name := r.s.name
    credits := r.s.credits
    department := r.s.department
    teacher_name := r.u.name
    teacher_email := r.u.email }

/-- The handler of `GET /api/classes`: the `classes` array of the response. -/
def getClasses (st : Store) (p : JWTPayload) : List ClassView :=
  (classRows st p).map selectClass

/-! ## GET /api/notifications -/

/-- The query parameters `limit` and `unreadOnly` of `c.req.query()`; `none`
when the parameter is not given. -/
structure NotificationsQuery where
  limit : Option String
  unreadOnly : Option String
  deriving DecidableEq, Repr

/-- An integer the store accepts as a bound value: one in the signed 64-bit
range. -/
def fitsInt64 (n : Int) : Bool :=
  decide (-9223372036854775808 ≤ n ∧ n ≤ 9223372036854775807)

/-- The value bound to `LIMIT ?`: `parseInt(limit.toString())`, with the
default `limit = 20`.  `parseInt` is the JavaScript builtin, `none` standing
for `NaN`.  The result is `none` when the statement cannot run with the value:
for `NaN`, and for an integer outside the signed 64-bit range. -/
def boundLimit (parseInt : String → Option Int) (q : NotificationsQuery) : Option Int :=
  match q.limit with
  | none => some 20
  | some s =>
    match parseInt s with
    | none => none
    | some n => if fitsInt64 n then some n else none

/-- The `WHERE` clause of the notification query: `user_id = ?`, and
`AND is_read = 0` when `unreadOnly === 'true'` (default `'false'`). -/
def notificationsWhere (p : JWTPayload) (q : NotificationsQuery) (n : Notification) : Bool :=
  n.user_id == p.userId && (if q.unreadOnly = some "true" then n.is_read == 0 else true)

/-- `ORDER BY created_at DESC`. -/
def orderByCreatedDesc (rows : List Notification) : List Notification :=
  rows.insertionSort fun a b => textLe b.created_at a.created_at = true

/-- `LIMIT n`: a negative limit is no limit. -/
def applyLimit (n : Int) (rows : List Notification) : List Notification :=
  if n < 0 then rows else rows.take n.toNat

/-- The rows the notification statement selects, before projection; a limit
that is no 64-bit integer makes the statement fail, and nothing is selected. -/
def notificationRows (parseInt : String → Option Int) (st : Store) (p : JWTPayload)
    (q : NotificationsQuery) : List Notification :=
  match boundLimit parseInt q with
  | none => []
  | some n => applyLimit n (orderByCreatedDesc (st.notifications.filter (notificationsWhere p q)))

/-- A row of the `SELECT` list of the notification query. -/
structure NotificationView where
  id : Nat
  title : String
  message : String
  type : String
  priority : String
  is_read : Nat
  action_url : Option String
  created_at : String
  deriving DecidableEq, Repr

/-- The `SELECT` list of the notification query. -/
def selectNotification (n : Notification) : NotificationView :=
  { id := n.id, title := n.title, message := n.message, type := n.type,
    priority := n.priority, is_read := n.is_read, action_url := n.action_url,
    created_at := n.created_at }

/-- The responses of the notification list: the 200 with `notifications`, or
the 500 of the `catch` block. -/
inductive NotificationsResponse where
  | ok (notifications : List NotificationView)
  | failed
  deriving DecidableEq, Repr

/-- The handler of `GET /api/notifications`. -/
def getNotifications (parseInt : String → Option Int) (st : Store) (p : JWTPayload)
    (q : NotificationsQuery) : NotificationsResponse :=
  match boundLimit parseInt q with
  | none => NotificationsResponse.failed
  | some _ => NotificationsResponse.ok ((notificationRows parseInt st p q).map selectNotification)

/-! ## POST /api/chat: the user context query -/

/-- A row of `users u LEFT JOIN enrollments e LEFT JOIN schedule_events se`. -/
structure ContextRow where
  u : User
  e : Option Enrollment
  se : Option ScheduleEvent
  deriving DecidableEq, Repr

/-- `se.start_datetime > datetime('now')`, a comparison of TEXT values; `now`
is the text `datetime('now')` yields. -/
def isUpcoming (now : String) (se : ScheduleEvent) : Bool :=
  !textLe se.start_datetime now

/-- The `FROM` clause of the context query: `users u LEFT JOIN enrollments e ON
u.id = e.student_id AND e.status = 'active' LEFT JOIN schedule_events se ON
se.start_datetime > datetime('now')`. -/
def contextFrom (st : Store) (now : String) : List ContextRow :=
  st.users.flatMap fun u =>
    (leftJoin st.enrollments fun e => u.id == e.student_id && e.status == "active").flatMap
      fun e => (leftJoin st.schedule_events (isUpcoming now)).map fun se => ContextRow.mk u e se

/-- The rows left by `WHERE u.id = ?`; they form the one group of
`GROUP BY u.id`. -/
def contextRows (st : Store) (now : String) (userId : Nat) : List ContextRow :=
  (contextFrom st now).filter fun r => r.u.id == userId

/-- `COUNT(DISTINCT x)` over a group: the number of distinct non-NULL values. -/
def countDistinct (xs : List (Option Nat)) : Nat :=
  (xs.filterMap fun x => x).dedup.length

/-- The row of the context query: `u.name, u.role, u.timezone,
COUNT(DISTINCT e.class_id) as enrolled_classes, COUNT(DISTINCT se.id) as
upcoming_events`. -/
structure UserContext where
  name : String
  role : UserRole
  timezone : Option String
  enrolled_classes : Nat
  upcoming_events : Nat
  deriving DecidableEq, Repr

/-- The `userContext` of the chat handler: `.first()` of the grouped query,
`none` when no user has the id. -/
def userContext (st : Store) (now : String) (userId : Nat) : Option UserContext :=
  match contextRows st now userId with
  | [] => none
  | r :: rs =>
    some
      { name := r.u.name
        role := r.u.role
        timezone := r.u.timezone
        enrolled_classes := countDistinct ((r :: rs).map fun x => x.e.map fun e => e.class_id)
        upcoming_events := countDistinct ((r :: rs).map fun x => x.se.map fun se => se.id) }

/-! ## POST /api/auth/login -/

/-- The JSON body of a login request; `none` when the field is absent. -/
structure LoginRequest where
  email : Option String
  password : Option String
  deriving DecidableEq, Repr

/-- The `user` object of the login response. -/
structure LoginProfile where
  id : Nat
  name : String
  email : String
  role : UserRole
  institutionId : Option Nat
  deriving DecidableEq, Repr

/-- The responses of the login handler: the 200 with `token` and `user`, the
400 `Email and password are required`, the 401 `Invalid credentials`, and the
500 `Login failed` of the `catch` block. -/
inductive LoginResponse where
  | ok (token : String) (user : LoginProfile)
  | required
  | invalidCredentials
  | loginFailed
  deriving DecidableEq, Repr

/-- The rows of `users u LEFT JOIN user_institutions ui ON u.id = ui.user_id
WHERE u.email = ? AND u.is_active = 1`. -/
def loginRows (st : Store) (email : String) : List (User × Option UserInstitution) :=
  (st.users.flatMap fun u =>
    (leftJoin st.user_institutions fun ui => u.id == ui.user_id).map fun ui => (u, ui)).filter
      fun r => r.1.email == email && r.1.is_active == 1

/-- `c.jwt.sign(payload, JWT_SECRET)`.  The module imports only the `jwt`
middleware of `hono/jwt`, and the context `c` of Hono has no property `jwt`:
`c.jwt` is `undefined`, so the call throws a `TypeError` whatever the payload.
`none` stands for the exception. -/
def contextJwtSign (_payload : JWTPayload) : Option String :=
  none

/-- The handler of `POST /api/auth/login`.  The password is tested for
truthiness and never compared with anything.  For a found user the payload is
built and handed to `c.jwt.sign`; an exception is answered with the 500 of the
`catch` block. -/
def postLogin (st : Store) (req : LoginRequest) : LoginResponse :=
  if !truthy req.email || !truthy req.password then LoginResponse.required
  else
    match req.email with
    | none => LoginResponse.required
    | some email =>
      match (loginRows st email).head? with
      | none => LoginResponse.invalidCredentials
      | some (u, ui) =>
        let institutionId := ui.bind fun x => x.institution_id
        match contextJwtSign { userId := u.id, email := u.email, role := u.role,
                               institutionId := institutionId } with
        | none => LoginResponse.loginFailed
        | some token =>
          LoginResponse.ok token
            { id := u.id, name := u.name, email := u.email, role := u.role,
              institutionId := institutionId }

/-! ## Sample data -/

/-- A student principal, user 1. -/
def alice : JWTPayload :=
  { userId := 1, email := "alice@example.edu", role := UserRole.student, institutionId := some 1 }

/-- A teacher principal, user 2, who teaches class 10. -/
def bob : JWTPayload :=
  { userId := 2, email := "bob@example.edu", role := UserRole.teacher, institutionId := some 1 }

/-- A teacher principal, user 4, with no class and no event. -/
def carol : JWTPayload :=
  { userId := 4, email := "carol@example.edu", role := UserRole.teacher, institutionId := some 1 }

/-- An event of class 10 on 15 January at 09:00, created by user 2. -/
def eventToday : ScheduleEvent :=
  { id := 3, title := "Algebra", description := none, event_type := "class",
    start_datetime := "2024-01-15 09:00:00", end_datetime := "2024-01-15 10:00:00",
    location := none, is_cancelled := 0, class_id := some 10, creator_id := 2 }

/-- An event of class 10 on 16 January at 09:00, created by user 2. -/
def eventE1 : ScheduleEvent :=
  { id := 1, title := "Algebra", description := none, event_type := "class",
    start_datetime := "2024-01-16 09:00:00", end_datetime := "2024-01-16 10:00:00",
    location := none, is_cancelled := 0, class_id := some 10, creator_id := 2 }

/-- A cancelled event of class 10 on 16 January at 10:00, created by user 2. -/
def eventE2 : ScheduleEvent :=
  { id := 2, title := "Algebra lab", description := none, event_type := "class",
    start_datetime := "2024-01-16 10:00:00", end_datetime := "2024-01-16 11:00:00",
    location := none, is_cancelled := 1, class_id := some 10, creator_id := 2 }

/-- An unread notification of user 1. -/
def noteN : Notification :=
  { id := 1, user_id := 1, title := "Exam", message := "Exam on Friday", type := "reminder",
    priority := "high", is_read := 0, read_at := none, action_url := none,
    created_at := "2024-01-10 08:00:00" }

/-- A store with one class taught by user 2, an active enrollment of user 1 and
a dropped enrollment of user 3 in it, three events of the class, one
notification and one conversation of user 1. -/
def demoStore : Store :=
  { users := []
    user_institutions := []
    subjects := [{ id := 100, code := "MATH101", name := "Algebra", credits := some 3,
                   department := none }]
    classes := [{ id := 10, section_name := "A", room := none, schedule_pattern := none,
                  max_students := none, subject_id := 100, teacher_id := 2, is_active := 1 }]
    enrollments := [{ student_id := 1, class_id := 10, status := "active" },
                    { student_id := 3, class_id := 10, status := "dropped" }]
    schedule_events := [eventToday, eventE1, eventE2]
    notifications := [noteN]
    chat_conversations := [{ id := 1, user_id := 1, title := "Hello...", context := "" }]
    chat_messages := [] }

/-- The window the dashboard sends on 15 January: date-only bounds. -/
def dashboardQuery : ScheduleQuery :=
  { startDate := some "2024-01-15", endDate := some "2024-01-16" }

/-- An admin principal, user 5, of institution 1. -/
def dana : JWTPayload :=
  { userId := 5, email := "dana@example.edu", role := UserRole.admin, institutionId := some 1 }

/-- An event of class 20 on 17 January, created by user 6. -/
def eventOther : ScheduleEvent :=
  { id := 4, title := "History", description := none, event_type := "class",
    start_datetime := "2024-01-17 09:00:00", end_datetime := "2024-01-17 10:00:00",
    location := none, is_cancelled := 0, class_id := some 20, creator_id := 6 }

/-- The `users` row of user 1. -/
def userAlice : User :=
  { id := 1, name := "Alice", email := "alice@example.edu", role := UserRole.student,
    phone := none, timezone := some "UTC", is_active := 1 }

/-- A store with two institutions: users 1, 2 and 5 belong to institution 1,
user 6 to institution 2.  User 2 teaches class 10 and user 6 class 20; user 1
has an active enrollment in class 10 and a dropped one in class 20. -/
def campusStore : Store :=
  { users := [userAlice,
              { id := 2, name := "Bob", email := "bob@example.edu", role := UserRole.teacher,
                phone := none, timezone := none, is_active := 1 },
              { id := 5, name := "Dana", email := "dana@example.edu", role := UserRole.admin,
                phone := none, timezone := none, is_active := 1 },
              { id := 6, name := "Erin", email := "erin@example.org", role := UserRole.teacher,
                phone := none, timezone := none, is_active := 1 }]
    user_institutions := [{ user_id := 1, institution_id := some 1, role_in_institution := none },
                          { user_id := 2, institution_id := some 1, role_in_institution := none },
                          { user_id := 5, institution_id := some 1, role_in_institution := none },
                          { user_id := 6, institution_id := some 2, role_in_institution := none }]
    subjects := [{ id := 100, code := "MATH101", name := "Algebra", credits := some 3,
                   department := none },
                 { id := 200, code := "HIST101", name := "History", credits := some 3,
                   department := none }]
    classes := [{ id := 10, section_name := "A", room := none, schedule_pattern := none,
                  max_students := none, subject_id := 100, teacher_id := 2, is_active := 1 },
                { id := 20, section_name := "B", room := none, schedule_pattern := none,
                  max_students := none, subject_id := 200, teacher_id := 6, is_active := 1 }]
    enrollments := [{ student_id := 1, class_id := 10, status := "active" },
                    { student_id := 1, class_id := 20, status := "dropped" }]
    schedule_events := [eventToday, eventE1, eventE2, eventOther]
    notifications := [noteN]
    chat_conversations := [{ id := 1, user_id := 1, title := "Hello...", context := "" }]
    chat_messages := [] }

/-- Modelled from the spec: the tenants a schedule event belongs to.  The table
declarations are not among the sources and no statement names a tenant column
of `schedule_events`; an event is attributed to the institutions of its
creator, recorded in `user_institutions`, the table from which the login
handler takes the `institutionId` of a principal. -/
def eventTenants (st : Store) (e : ScheduleEvent) : List (Option Nat) :=
  (st.user_institutions.filter fun ui => ui.user_id == e.creator_id).map fun ui =>
    ui.institution_id

/-- The turns of conversation `c`, in insertion order. -/
def turnsOf (st : Store) (c : Nat) : List ChatMessage :=
  st.chat_messages.filter fun m => m.conversation_id == c

/-! ## Schedule: auxiliary lemmas -/

theorem textLe_iff (a b : String) : textLe a b = true ↔ a ≤ b := by
  simp [textLe, String.le_iff_toList_le]

theorem leftJoin_ne_nil {α : Type} (t : List α) (p : α → Bool) : leftJoin t p ≠ [] := by
  unfold leftJoin
  split <;> simp

theorem joinSubjects_ne_nil (st : Store) (c : Option Class) : joinSubjects st c ≠ [] := by
  cases c with
  | none => simp [joinSubjects]
  | some c => exact leftJoin_ne_nil _ _

/-- Every row of the `FROM` clause stems from a stored event, and every stored
event contributes at least one row. -/
theorem exists_mem_scheduleFrom (st : Store) (e : ScheduleEvent) :
    (∃ r ∈ scheduleFrom st, r.se = e) ↔ e ∈ st.schedule_events := by
  constructor
  · rintro ⟨r, hr, rfl⟩
    simp only [scheduleFrom, List.mem_flatMap, List.mem_map] at hr
    obtain ⟨se, hse, c, _, s, _, rfl⟩ := hr
    exact hse
  · intro he
    obtain ⟨c, hc⟩ := List.exists_mem_of_ne_nil _
      (leftJoin_ne_nil st.classes (fun c => e.class_id == some c.id))
    obtain ⟨s, hs⟩ := List.exists_mem_of_ne_nil _ (joinSubjects_ne_nil st c)
    refine ⟨JoinedEvent.mk e c s, ?_, rfl⟩
    simp only [scheduleFrom, List.mem_flatMap, List.mem_map]
    exact ⟨e, he, c, hc, s, hs, rfl⟩

theorem mem_scheduleRows (st : Store) (p : JWTPayload) (q : ScheduleQuery) (r : JoinedEvent) :
    r ∈ scheduleRows st p q ↔ r ∈ scheduleFrom st ∧ scheduleWhere st p q r = true := by
  unfold scheduleRows orderByStart
  rw [(List.perm_insertionSort _ _).mem_iff, List.mem_filter]

/-- An event appears exactly when it is stored and passes the `WHERE` clause. -/
theorem appearsInSchedule_iff (st : Store) (p : JWTPayload) (q : ScheduleQuery)
    (e : ScheduleEvent) :
    appearsInSchedule st p q e ↔
      e ∈ st.schedule_events ∧ roleScope st p e = true ∧ startBound q e = true ∧
        endBound q e = true := by
  unfold appearsInSchedule
  constructor
  · rintro ⟨r, hr, rfl⟩
    rw [mem_scheduleRows] at hr
    obtain ⟨hfrom, hwhere⟩ := hr
    simp only [scheduleWhere, Bool.and_eq_true] at hwhere
    exact ⟨(exists_mem_scheduleFrom st r.se).mp ⟨r, hfrom, rfl⟩, hwhere.1.1, hwhere.1.2, hwhere.2⟩
  · rintro ⟨he, h1, h2, h3⟩
    obtain ⟨r, hr, rfl⟩ := (exists_mem_scheduleFrom st e).mpr he
    refine ⟨r, ?_, rfl⟩
    rw [mem_scheduleRows]
    refine ⟨hr, ?_⟩
    simp [scheduleWhere, h1, h2, h3]

theorem studentScope_iff (st : Store) (u : Nat) (e : ScheduleEvent) :
    studentScope st u e = true ↔
      ∃ en ∈ st.enrollments, en.student_id = u ∧ e.class_id = some en.class_id ∧
        en.status = "active" := by
  simp only [studentScope, List.any_eq_true, Bool.and_eq_true, beq_iff_eq]
  constructor
  · rintro ⟨en, hen, ⟨h1, h2⟩, h3⟩
    exact ⟨en, hen, h1, h3, h2⟩
  · rintro ⟨en, hen, h1, h3, h2⟩
    exact ⟨en, hen, ⟨h1, h2⟩, h3⟩

theorem teacherScope_iff (st : Store) (u : Nat) (e : ScheduleEvent) :
    teacherScope st u e = true ↔
      e.creator_id = u ∨ ∃ c ∈ st.classes, c.teacher_id = u ∧ e.class_id = some c.id := by
  simp only [teacherScope, Bool.or_eq_true, List.any_eq_true, Bool.and_eq_true, beq_iff_eq]

/-! ## Text order: prefixes and equal-length bounds -/

theorem lex_append_of_length_eq {α : Type} (r : α → α → Prop) :
    ∀ {a b : List α} (t : List α), a.length = b.length → List.Lex r a b → List.Lex r (a ++ t) b
  | _, _, _, hlen, List.Lex.nil => by simp at hlen
  | _, _, t, hlen, List.Lex.cons h =>
    List.Lex.cons (lex_append_of_length_eq r t (by simpa using hlen) h)
  | _, _, _, _, List.Lex.rel h => List.Lex.rel h

theorem chars_lt_append (a t : List Char) (ht : t ≠ []) : a < a ++ t := by
  cases t with
  | nil => exact absurd rfl ht
  | cons c cs =>
    have h := List.Lex.append_left (· < ·) (List.Lex.nil : List.Lex (· < ·) [] (c :: cs)) a
    simpa using h

theorem chars_le_append (a t : List Char) : a ≤ a ++ t := by
  cases t with
  | nil => simp
  | cons c cs => exact le_of_lt (chars_lt_append a (c :: cs) (by simp))

/-- A text is at most any text it is a prefix of. -/
theorem textLe_append_right (a t : String) : textLe a (a ++ t) = true := by
  simp only [textLe, decide_eq_true_eq, String.toList, String.data_append]
  exact chars_le_append _ _

/-- Below a text of the same length, with any suffix added. -/
theorem textLe_append_left (a b t : String) (hlen : a.length = b.length) (hlt : a < b) :
    textLe (a ++ t) b = true := by
  simp only [textLe, decide_eq_true_eq, String.toList, String.data_append]
  exact le_of_lt (lex_append_of_length_eq (· < ·) t.data hlen (String.lt_iff_toList_lt.mp hlt))

/-- A text followed by a non-empty suffix is above the text itself. -/
theorem textLe_append_self (b t : String) (ht : t ≠ "") : textLe (b ++ t) b = false := by
  simp only [textLe, decide_eq_false_iff_not, String.toList, String.data_append, not_le]
  apply chars_lt_append
  intro h
  exact ht (String.ext h)

theorem truthy_of_lt_of_length_eq (a b : String) (hlen : a.length = b.length) (hlt : a < b) :
    truthy (some a) = true ∧ truthy (some b) = true := by
  have hb : b ≠ "" := by
    rintro rfl
    exact List.Lex.not_nil_right _ _ (String.lt_iff_toList_lt.mp hlt)
  have ha : a ≠ "" := by
    rintro rfl
    apply hb
    apply String.ext
    exact List.length_eq_zero.mp hlen.symm
  simp [truthy, ha, hb]

theorem mem_getSchedule_of_appears (st : Store) (p : JWTPayload) (q : ScheduleQuery)
    (e : ScheduleEvent) (h : appearsInSchedule st p q e) :
    ∃ v ∈ getSchedule st p q, v.id = e.id ∧ v.start_datetime = e.start_datetime ∧
      v.is_cancelled = e.is_cancelled := by
  obtain ⟨r, hr, rfl⟩ := h
  exact ⟨selectEvent r, List.mem_map_of_mem _ hr, rfl, rfl, rfl⟩

/-! ## Schedule: role scoping -/

/-- C1: for a student and an event whose start passes the supplied bounds, the
event appears in the schedule result iff some enrollment row has the student's
id, the event's class and status `'active'`; an event with no class, or whose
enrollments for the student are all non-active, never appears. -/
theorem student_schedule_iff_active_enrollment (st : Store) (p : JWTPayload)
    (q : ScheduleQuery) (e : ScheduleEvent) (hrole : p.role = UserRole.student)
    (he : e ∈ st.schedule_events) (hb : passesBounds q e) :
    (appearsInSchedule st p q e ↔
        ∃ en ∈ st.enrollments, en.student_id = p.userId ∧ e.class_id = some en.class_id ∧
          en.status = "active") ∧
      (e.class_id = none → ¬ appearsInSchedule st p q e) ∧
      ((∀ en ∈ st.enrollments, en.student_id = p.userId → e.class_id = some en.class_id →
          en.status ≠ "active") → ¬ appearsInSchedule st p q e) := by
  have key : appearsInSchedule st p q e ↔
      ∃ en ∈ st.enrollments, en.student_id = p.userId ∧ e.class_id = some en.class_id ∧
        en.status = "active" := by
    rw [appearsInSchedule_iff, ← studentScope_iff]
    simp only [roleScope, hrole]
    exact ⟨fun h => h.2.1, fun h => ⟨he, h, hb.1, hb.2⟩⟩
  refine ⟨key, ?_, ?_⟩
  · intro hnone happ
    obtain ⟨en, _, _, hc, _⟩ := key.mp happ
    rw [hnone] at hc
    exact Option.noConfusion hc
  · intro hall happ
    obtain ⟨en, hen, hs, hc, hact⟩ := key.mp happ
    exact hall en hen hs hc hact

/-- Witness of C1 on the sample store: the student's event of 16 January, with
no bounds supplied. -/
theorem student_schedule_iff_active_enrollment_witness :
    (appearsInSchedule demoStore alice ⟨none, none⟩ eventE1 ↔
        ∃ en ∈ demoStore.enrollments, en.student_id = alice.userId ∧
          eventE1.class_id = some en.class_id ∧ en.status = "active") ∧
      (eventE1.class_id = none → ¬ appearsInSchedule demoStore alice ⟨none, none⟩ eventE1) ∧
      ((∀ en ∈ demoStore.enrollments, en.student_id = alice.userId →
          eventE1.class_id = some en.class_id → en.status ≠ "active") →
        ¬ appearsInSchedule demoStore alice ⟨none, none⟩ eventE1) :=
  student_schedule_iff_active_enrollment demoStore alice ⟨none, none⟩ eventE1 rfl
    (by decide) ⟨rfl, rfl⟩

/-- C2: for a teacher and an event whose start passes the supplied bounds, the
event appears in the schedule result iff the teacher created it or its class is
a class whose `teacher_id` is the teacher. -/
theorem teacher_schedule_iff_created_or_teaches (st : Store) (p : JWTPayload)
    (q : ScheduleQuery) (e : ScheduleEvent) (hrole : p.role = UserRole.teacher)
    (he : e ∈ st.schedule_events) (hb : passesBounds q e) :
    appearsInSchedule st p q e ↔
      e.creator_id = p.userId ∨
        ∃ c ∈ st.classes, c.teacher_id = p.userId ∧ e.class_id = some c.id := by
  rw [appearsInSchedule_iff, ← teacherScope_iff]
  simp only [roleScope, hrole]
  exact ⟨fun h => h.2.1, fun h => ⟨he, h, hb.1, hb.2⟩⟩

/-- Witness of C2 on the sample store: the teacher of class 10 and the event of
15 January inside the dashboard window. -/
theorem teacher_schedule_iff_created_or_teaches_witness :
    appearsInSchedule demoStore bob dashboardQuery eventToday ↔
      eventToday.creator_id = bob.userId ∨
        ∃ c ∈ demoStore.classes, c.teacher_id = bob.userId ∧ eventToday.class_id = some c.id :=
  teacher_schedule_iff_created_or_teaches demoStore bob dashboardQuery eventToday rfl
    (by decide) ⟨by decide, by decide⟩

/-- C9: for every principal, store and date bounds, the events returned with
the bounds are among those returned with no bounds, both as selected rows and
as projected result rows: the bounds only narrow the role-scoped result. -/
theorem schedule_bounds_only_narrow (st : Store) (p : JWTPayload) (q : ScheduleQuery) :
    scheduleRows st p q ⊆ scheduleRows st p ⟨none, none⟩ ∧
      getSchedule st p q ⊆ getSchedule st p ⟨none, none⟩ := by
  have hrows : scheduleRows st p q ⊆ scheduleRows st p ⟨none, none⟩ := by
    intro r hr
    rw [mem_scheduleRows] at hr ⊢
    refine ⟨hr.1, ?_⟩
    have hw := hr.2
    simp only [scheduleWhere, Bool.and_eq_true] at hw ⊢
    exact ⟨⟨hw.1.1, rfl⟩, rfl⟩
  exact ⟨hrows, List.map_subset _ hrows⟩

/-! ## The dashboard window -/

/-- C10 as stated fails: on the sample store the student has an active
enrollment in class 10, whose events of 16 January at 09:00 and (cancelled) at
10:00 are stored; the query with the date-only bounds of 15 and 16 January
returns neither, only the event of 15 January. -/
theorem dashboard_window_omits_end_day :
    (∃ en ∈ demoStore.enrollments, en.student_id = alice.userId ∧ en.class_id = 10 ∧
        en.status = "active") ∧
      eventE1 ∈ demoStore.schedule_events ∧ eventE1.class_id = some 10 ∧
      eventE2 ∈ demoStore.schedule_events ∧ eventE2.class_id = some 10 ∧
      ¬ appearsInSchedule demoStore alice dashboardQuery eventE1 ∧
      ¬ appearsInSchedule demoStore alice dashboardQuery eventE2 ∧
      (getSchedule demoStore alice dashboardQuery).map (fun v => v.id) = [eventToday.id] := by
  refine ⟨by decide, by decide, rfl, by decide, rfl, ?_, ?_, by decide⟩
  · rw [appearsInSchedule_iff]
    rintro ⟨_, _, _, h⟩
    exact absurd h (by decide)
  · rw [appearsInSchedule_iff]
    rintro ⟨_, _, _, h⟩
    exact absurd h (by decide)

/-- C10 amended: for a student with an active enrollment in class `C`, an event
of class `C` and date-only bounds `today < tomorrow` of equal length, the query
returns the event, with its stored `is_cancelled`, when its start is `today`
followed by any time of day, and does not return it when its start is
`tomorrow` followed by a non-empty time of day; a teacher who neither created
the event nor teaches `C` does not get it, and gets an empty list when that
holds of every stored event. -/
theorem dashboard_window_covers_start_day (st : Store) (p : JWTPayload) (C : Nat)
    (e : ScheduleEvent) (today tomorrow : String) (hrole : p.role = UserRole.student)
    (hen : ∃ en ∈ st.enrollments, en.student_id = p.userId ∧ en.class_id = C ∧
      en.status = "active")
    (he : e ∈ st.schedule_events) (hc : e.class_id = some C)
    (hlen : today.length = tomorrow.length) (hlt : today < tomorrow) :
    (∀ t : String, e.start_datetime = today ++ t →
        appearsInSchedule st p ⟨some today, some tomorrow⟩ e ∧
        ∃ v ∈ getSchedule st p ⟨some today, some tomorrow⟩, v.id = e.id ∧
          v.start_datetime = e.start_datetime ∧ v.is_cancelled = e.is_cancelled) ∧
      (∀ t : String, t ≠ "" → e.start_datetime = tomorrow ++ t →
        ¬ appearsInSchedule st p ⟨some today, some tomorrow⟩ e) ∧
      (∀ T : JWTPayload, T.role = UserRole.teacher → e.creator_id ≠ T.userId →
        (∀ c ∈ st.classes, c.id = C → c.teacher_id ≠ T.userId) →
        ¬ appearsInSchedule st T ⟨some today, some tomorrow⟩ e) ∧
      (∀ T : JWTPayload, T.role = UserRole.teacher →
        (∀ e' ∈ st.schedule_events, e'.creator_id ≠ T.userId ∧
          ∀ c ∈ st.classes, e'.class_id = some c.id → c.teacher_id ≠ T.userId) →
        getSchedule st T ⟨some today, some tomorrow⟩ = []) := by
  obtain ⟨htoday, htomorrow⟩ := truthy_of_lt_of_length_eq today tomorrow hlen hlt
  refine ⟨?_, ?_, ?_, ?_⟩
  · intro t hstart
    have happ : appearsInSchedule st p ⟨some today, some tomorrow⟩ e := by
      rw [appearsInSchedule_iff]
      refine ⟨he, ?_, ?_, ?_⟩
      · simp only [roleScope, hrole]
        rw [studentScope_iff]
        obtain ⟨en, hmem, hs, hcl, hact⟩ := hen
        exact ⟨en, hmem, hs, by rw [hc, hcl], hact⟩
      · simp only [startBound, htoday, if_true, hstart]
        exact textLe_append_right today t
      · simp only [endBound, htomorrow, if_true, hstart]
        exact textLe_append_left today tomorrow t hlen hlt
    exact ⟨happ, mem_getSchedule_of_appears st p _ e happ⟩
  · intro t ht hstart happ
    rw [appearsInSchedule_iff] at happ
    have hend := happ.2.2.2
    simp only [endBound, htomorrow, if_true, hstart] at hend
    rw [textLe_append_self tomorrow t ht] at hend
    exact Bool.noConfusion hend
  · intro T hT hcreator hteach happ
    rw [appearsInSchedule_iff] at happ
    have hscope := happ.2.1
    simp only [roleScope, hT] at hscope
    rcases (teacherScope_iff st T.userId e).mp hscope with h | ⟨c, hmem, hteacher, hcl⟩
    · exact hcreator h
    · rw [hc] at hcl
      exact hteach c hmem (Option.some.inj hcl).symm hteacher
  · intro T hT hall
    unfold getSchedule
    rw [List.map_eq_nil_iff, List.eq_nil_iff_forall_not_mem]
    intro r hr
    have happ : appearsInSchedule st T ⟨some today, some tomorrow⟩ r.se := ⟨r, hr, rfl⟩
    rw [appearsInSchedule_iff] at happ
    have hscope := happ.2.1
    simp only [roleScope, hT] at hscope
    rcases (teacherScope_iff st T.userId r.se).mp hscope with h | ⟨c, hmem, hteacher, hcl⟩
    · exact (hall r.se happ.1).1 h
    · exact (hall r.se happ.1).2 c hmem hcl hteacher

/-- Witness of the amended C10 on the sample store: the student, class 10, the
event of 15 January and the window of 15 and 16 January. -/
theorem dashboard_window_covers_start_day_witness :
    (∀ t : String, eventToday.start_datetime = "2024-01-15" ++ t →
        appearsInSchedule demoStore alice ⟨some "2024-01-15", some "2024-01-16"⟩ eventToday ∧
        ∃ v ∈ getSchedule demoStore alice ⟨some "2024-01-15", some "2024-01-16"⟩,
          v.id = eventToday.id ∧ v.start_datetime = eventToday.start_datetime ∧
            v.is_cancelled = eventToday.is_cancelled) ∧
      (∀ t : String, t ≠ "" → eventToday.start_datetime = "2024-01-16" ++ t →
        ¬ appearsInSchedule demoStore alice ⟨some "2024-01-15", some "2024-01-16"⟩ eventToday) ∧
      (∀ T : JWTPayload, T.role = UserRole.teacher → eventToday.creator_id ≠ T.userId →
        (∀ c ∈ demoStore.classes, c.id = 10 → c.teacher_id ≠ T.userId) →
        ¬ appearsInSchedule demoStore T ⟨some "2024-01-15", some "2024-01-16"⟩ eventToday) ∧
      (∀ T : JWTPayload, T.role = UserRole.teacher →
        (∀ e' ∈ demoStore.schedule_events, e'.creator_id ≠ T.userId ∧
          ∀ c ∈ demoStore.classes, e'.class_id = some c.id → c.teacher_id ≠ T.userId) →
        getSchedule demoStore T ⟨some "2024-01-15", some "2024-01-16"⟩ = []) :=
  dashboard_window_covers_start_day demoStore alice 10 eventToday "2024-01-15" "2024-01-16"
    rfl (by decide) (by decide) rfl (by decide) (String.lt_iff_toList_lt.mpr (by decide))

/-! ## Notification read transition -/

theorem markNotificationRead_notifications (now : String) (i : Option Nat) (p : JWTPayload)
    (st : Store) :
    (markNotificationRead now i p st).2.notifications =
      st.notifications.map fun n => if readTarget i p n then setRead now n else n :=
  rfl

theorem readTarget_iff (i : Option Nat) (p : JWTPayload) (n : Notification) :
    readTarget i p n = true ↔ i = some n.id ∧ n.user_id = p.userId := by
  simp [readTarget]

theorem readTarget_setRead (now : String) (i : Option Nat) (p : JWTPayload) (n : Notification) :
    readTarget i p (setRead now n) = readTarget i p n :=
  rfl

/-- The row at position `k` after the transition is the row at position `k`
before it, updated when it is the target. -/
theorem markNotificationRead_getElem? (now : String) (i : Option Nat) (p : JWTPayload)
    (st : Store) (k : Nat) :
    (markNotificationRead now i p st).2.notifications[k]? =
      (st.notifications[k]?).map fun n => if readTarget i p n then setRead now n else n := by
  rw [markNotificationRead_notifications, List.getElem?_map]

/-- Two transitions in a row amount to the second one alone. -/
theorem markNotificationRead_twice (t₁ t₂ : String) (i : Option Nat) (p : JWTPayload)
    (st : Store) :
    markNotificationRead t₂ i p (markNotificationRead t₁ i p st).2 =
      markNotificationRead t₂ i p st := by
  simp only [markNotificationRead, List.map_map]
  congr 2
  apply List.map_congr_left
  intro n _
  by_cases h : readTarget i p n = true
  · simp only [Function.comp, h, readTarget_setRead, if_true]
    rfl
  · simp [Function.comp, h]

/-- C5 as stated fails: on the sample store the owner marks notification 1 read
at 10:00 and again at 11:00; the first call records 10:00, the second call
overwrites it with 11:00. -/
theorem read_twice_overwrites_read_at :
    noteN.user_id = alice.userId ∧
      (markNotificationRead "2024-01-15 10:00:00" (some 1) alice demoStore).2.notifications =
        [{ noteN with is_read := 1, read_at := some "2024-01-15 10:00:00" }] ∧
      (markNotificationRead "2024-01-15 11:00:00" (some 1) alice
          (markNotificationRead "2024-01-15 10:00:00" (some 1) alice demoStore).2).2.notifications =
        [{ noteN with is_read := 1, read_at := some "2024-01-15 11:00:00" }] ∧
      (some "2024-01-15 11:00:00" : Option String) ≠ some "2024-01-15 10:00:00" := by
  refine ⟨rfl, rfl, rfl, by decide⟩

/-- C5 amended: for a notification owned by the principal, two read transitions
in a row give the same response and store as the second one alone; afterwards
the row is read and its `read_at` is the instant of the second call. -/
theorem read_twice_eq_second (t₁ t₂ : String) (i : Option Nat) (p : JWTPayload) (st : Store)
    (k : Nat) (n : Notification) (hk : st.notifications[k]? = some n) (hid : i = some n.id)
    (hown : n.user_id = p.userId) :
    markNotificationRead t₂ i p (markNotificationRead t₁ i p st).2 =
        markNotificationRead t₂ i p st ∧
      ∃ n', (markNotificationRead t₂ i p
          (markNotificationRead t₁ i p st).2).2.notifications[k]? = some n' ∧
        n'.is_read = 1 ∧ n'.read_at = some t₂ ∧
        n' = { n with is_read := 1, read_at := some t₂ } := by
  have htarget : readTarget i p n = true := (readTarget_iff i p n).mpr ⟨hid, hown⟩
  refine ⟨markNotificationRead_twice t₁ t₂ i p st, setRead t₂ n, ?_, rfl, rfl, rfl⟩
  rw [markNotificationRead_twice, markNotificationRead_getElem?, hk]
  simp [htarget]

/-- Witness of the amended C5 on the sample store. -/
theorem read_twice_eq_second_witness :
    markNotificationRead "2024-01-15 11:00:00" (some 1) alice
          (markNotificationRead "2024-01-15 10:00:00" (some 1) alice demoStore).2 =
        markNotificationRead "2024-01-15 11:00:00" (some 1) alice demoStore ∧
      ∃ n', (markNotificationRead "2024-01-15 11:00:00" (some 1) alice
          (markNotificationRead "2024-01-15 10:00:00" (some 1) alice
            demoStore).2).2.notifications[0]? = some n' ∧
        n'.is_read = 1 ∧ n'.read_at = some "2024-01-15 11:00:00" ∧
        n' = { noteN with is_read := 1, read_at := some "2024-01-15 11:00:00" } :=
  read_twice_eq_second "2024-01-15 10:00:00" "2024-01-15 11:00:00" (some 1) alice demoStore 0
    noteN rfl rfl rfl

/-- C6 as stated fails: on the sample store user 2 invokes the read transition
on notification 1 of user 1 and is answered with success. -/
theorem foreign_read_reports_success :
    noteN ∈ demoStore.notifications ∧ noteN.user_id ≠ bob.userId ∧
      (markNotificationRead "2024-01-15 10:00:00" (some noteN.id) bob demoStore).1 =
        ReadResponse.success := by
  refine ⟨by decide, by decide, rfl⟩

/-- C6 amended: the read transition invoked on a notification of another user
reports success and leaves that notification as it was. -/
theorem foreign_read_success_no_change (now : String) (p : JWTPayload) (st : Store) (k : Nat)
    (n : Notification) (hk : st.notifications[k]? = some n) (hown : n.user_id ≠ p.userId) :
    (markNotificationRead now (some n.id) p st).1 = ReadResponse.success ∧
      (markNotificationRead now (some n.id) p st).2.notifications[k]? = some n := by
  have htarget : readTarget (some n.id) p n = false := by
    rw [Bool.eq_false_iff]
    intro h
    exact hown ((readTarget_iff _ p n).mp h).2
  refine ⟨rfl, ?_⟩
  rw [markNotificationRead_getElem?, hk]
  simp [htarget]

/-- Witness of the amended C6 on the sample store. -/
theorem foreign_read_success_no_change_witness :
    (markNotificationRead "2024-01-15 10:00:00" (some noteN.id) bob demoStore).1 =
        ReadResponse.success ∧
      (markNotificationRead "2024-01-15 10:00:00" (some noteN.id) bob
        demoStore).2.notifications[0]? = some noteN :=
  foreign_read_success_no_change "2024-01-15 10:00:00" bob demoStore 0 noteN rfl (by decide)

/-- C7: the read transition with id `i` by principal `p` changes no other
table, keeps the number and order of notification rows, leaves every row that
does not have both `id = i` and `user_id = p.userId` as it was, changes at most
`is_read` and `read_at` on a matching row, and changes nothing at all when no
row with id `i` belongs to `p`. -/
theorem read_transition_frame (now : String) (i : Option Nat) (p : JWTPayload) (st : Store) :
    (markNotificationRead now i p st).2.users = st.users ∧
      (markNotificationRead now i p st).2.user_institutions = st.user_institutions ∧
      (markNotificationRead now i p st).2.subjects = st.subjects ∧
      (markNotificationRead now i p st).2.classes = st.classes ∧
      (markNotificationRead now i p st).2.enrollments = st.enrollments ∧
      (markNotificationRead now i p st).2.schedule_events = st.schedule_events ∧
      (markNotificationRead now i p st).2.chat_conversations = st.chat_conversations ∧
      (markNotificationRead now i p st).2.chat_messages = st.chat_messages ∧
      (markNotificationRead now i p st).2.notifications.length = st.notifications.length ∧
      (∀ (k : Nat) (n : Notification), st.notifications[k]? = some n →
        ∃ n', (markNotificationRead now i p st).2.notifications[k]? = some n' ∧
          (¬ (i = some n.id ∧ n.user_id = p.userId) → n' = n) ∧
          n' = { n with is_read := n'.is_read, read_at := n'.read_at }) ∧
      ((∀ n ∈ st.notifications, i = some n.id → n.user_id ≠ p.userId) →
        (markNotificationRead now i p st).2 = st) := by
  refine ⟨rfl, rfl, rfl, rfl, rfl, rfl, rfl, rfl, ?_, ?_, ?_⟩
  · rw [markNotificationRead_notifications, List.length_map]
  · intro k n hk
    rw [markNotificationRead_getElem?, hk]
    by_cases h : readTarget i p n = true
    · refine ⟨setRead now n, by simp [h], ?_, rfl⟩
      intro hne
      exact absurd ((readTarget_iff i p n).mp h) hne
    · refine ⟨n, by simp [h], fun _ => rfl, rfl⟩
  · intro hall
    have hmap : (st.notifications.map fun n => if readTarget i p n then setRead now n else n) =
        st.notifications := by
      conv_rhs => rw [← List.map_id st.notifications]
      apply List.map_congr_left
      intro n hn
      have : readTarget i p n = false := by
        rw [Bool.eq_false_iff]
        intro h
        exact hall n hn ((readTarget_iff i p n).mp h).1 ((readTarget_iff i p n).mp h).2
      simp [this]
    show ({ st with notifications := _ } : Store) = st
    rw [hmap]

/-- C8: the read transition invoked by the owner of a notification, read or
unread, reports success, and afterwards that row has `is_read = 1` and a
non-null `read_at`, its other columns being as before. -/
theorem owner_read_succeeds (now : String) (p : JWTPayload) (st : Store) (k : Nat)
    (n : Notification) (hk : st.notifications[k]? = some n) (hown : n.user_id = p.userId) :
    (markNotificationRead now (some n.id) p st).1 = ReadResponse.success ∧
      ∃ n', (markNotificationRead now (some n.id) p st).2.notifications[k]? = some n' ∧
        n'.is_read = 1 ∧ n'.read_at ≠ none ∧
        n' = { n with is_read := n'.is_read, read_at := n'.read_at } := by
  have htarget : readTarget (some n.id) p n = true := (readTarget_iff _ p n).mpr ⟨rfl, hown⟩
  refine ⟨rfl, setRead now n, ?_, rfl, ?_, rfl⟩
  · rw [markNotificationRead_getElem?, hk]
    simp [htarget]
  · simp [setRead]

/-- Witness of C8 on the sample store, for a row that is already read: the
notification of user 1 after a first transition. -/
theorem owner_read_succeeds_witness :
    (markNotificationRead "2024-01-15 11:00:00" (some (setRead "2024-01-15 10:00:00" noteN).id)
        alice (markNotificationRead "2024-01-15 10:00:00" (some 1) alice demoStore).2).1 =
        ReadResponse.success ∧
      ∃ n', (markNotificationRead "2024-01-15 11:00:00"
          (some (setRead "2024-01-15 10:00:00" noteN).id) alice
          (markNotificationRead "2024-01-15 10:00:00" (some 1) alice
            demoStore).2).2.notifications[0]? = some n' ∧
        n'.is_read = 1 ∧ n'.read_at ≠ none ∧
        n' = { setRead "2024-01-15 10:00:00" noteN with
          is_read := n'.is_read, read_at := n'.read_at } :=
  owner_read_succeeds "2024-01-15 11:00:00" alice
    (markNotificationRead "2024-01-15 10:00:00" (some 1) alice demoStore).2 0
    (setRead "2024-01-15 10:00:00" noteN) rfl rfl

/-! ## Chat -/

theorem resolveConversation_supplied (nowIso : String) (p : JWTPayload) (req : ChatRequest)
    (st : Store) (i : Nat) (hid : req.conversationId = some i) (hpos : i ≠ 0) :
    resolveConversation nowIso p req st = (i, st) := by
  cases i with
  | zero => exact absurd rfl hpos
  | succ k => simp [resolveConversation, hid]

/-- C3 as stated fails: on the sample store user 2 sends a chat message with the
id of conversation 1, which user 1 owns; the answer is the 200 with that id, and
both turns are appended to conversation 1. -/
theorem foreign_conversation_chat_succeeds :
    (∃ c ∈ demoStore.chat_conversations, c.id = 1 ∧ c.user_id = alice.userId) ∧
      alice.userId ≠ bob.userId ∧
      postChat "2024-01-15T12:00:00.000Z" (some "Hello") bob ⟨"Hi", some 1⟩ demoStore =
        (ChatResponse.ok "Hello" 1,
          { demoStore with
            chat_messages := [⟨1, "user", "Hi", "text"⟩, ⟨1, "assistant", "Hello", "text"⟩] }) := by
  refine ⟨by decide, by decide, rfl⟩

/-- C3 amended: no ownership check is made.  A chat request with a non-empty
message that supplies the non-zero id of a conversation owned by another
principal, and whose inference call returns, is answered with the 200 carrying
the supplied id, and the user turn and the assistant turn are appended under
that conversation id; nothing else in the store changes. -/
theorem chat_foreign_conversation_appends (nowIso r : String) (p : JWTPayload)
    (req : ChatRequest) (st : Store) (c : Conversation) (_hc : c ∈ st.chat_conversations)
    (_hown : c.user_id ≠ p.userId) (hid : req.conversationId = some c.id) (hpos : c.id ≠ 0)
    (hmsg : req.message ≠ "") :
    postChat nowIso (some r) p req st =
      (ChatResponse.ok r c.id,
        { st with
          chat_messages := st.chat_messages ++
            [⟨c.id, "user", req.message, "text"⟩, ⟨c.id, "assistant", r, "text"⟩] }) := by
  simp [postChat, hmsg, resolveConversation_supplied nowIso p req st c.id hid hpos,
    insertMessage]

/-- Witness of the amended C3 on the sample store. -/
theorem chat_foreign_conversation_appends_witness :
    postChat "2024-01-15T12:00:00.000Z" (some "Hello") bob ⟨"Hi", some 1⟩ demoStore =
      (ChatResponse.ok "Hello" 1,
        { demoStore with
          chat_messages := demoStore.chat_messages ++
            [⟨1, "user", "Hi", "text"⟩, ⟨1, "assistant", "Hello", "text"⟩] }) :=
  chat_foreign_conversation_appends "2024-01-15T12:00:00.000Z" "Hello" bob ⟨"Hi", some 1⟩
    demoStore ⟨1, 1, "Hello...", ""⟩ (by decide) (by decide) rfl (by decide) (by decide)

/-- C4 as stated fails: on the sample store a chat request with message `Hi`
whose inference call throws is answered with the 500 and leaves `chat_messages`
as it was, so no row, the user's included, is added. -/
theorem failed_inference_adds_no_row :
    ("Hi" : String) ≠ "" ∧
      postChat "2024-01-15T12:00:00.000Z" none alice ⟨"Hi", none⟩ demoStore =
        (ChatResponse.chatFailed, demoStore) ∧
      ¬ ∃ m, (postChat "2024-01-15T12:00:00.000Z" none alice ⟨"Hi", none⟩
        demoStore).2.chat_messages = demoStore.chat_messages ++ [m] := by
  refine ⟨by decide, rfl, ?_⟩
  rintro ⟨m, hm⟩
  have hlen := congrArg List.length hm
  simp [postChat, demoStore] at hlen

/-- C4 amended: a chat request with a non-empty message whose inference call
throws is answered with the 500 `Chat failed` and leaves the store as it was: no
`chat_messages` row, of the user or of the assistant, and no conversation is
added. -/
theorem failed_inference_store_unchanged (nowIso : String) (p : JWTPayload) (req : ChatRequest)
    (st : Store) (hmsg : req.message ≠ "") :
    postChat nowIso none p req st = (ChatResponse.chatFailed, st) := by
  simp [postChat, hmsg]

/-- Witness of the amended C4 on the sample store. -/
theorem failed_inference_store_unchanged_witness :
    postChat "2024-01-15T12:00:00.000Z" none alice ⟨"Hi", none⟩ demoStore =
      (ChatResponse.chatFailed, demoStore) :=
  failed_inference_store_unchanged "2024-01-15T12:00:00.000Z" alice ⟨"Hi", none⟩ demoStore
    (by decide)

/-! ## Schedule: ordering and admin scope -/

theorem orderByStart_sorted (rows : List JoinedEvent) :
    List.Sorted (fun a b : JoinedEvent => textLe a.se.start_datetime b.se.start_datetime = true)
      (orderByStart rows) := by
  have htotal : IsTotal JoinedEvent
      (fun a b => textLe a.se.start_datetime b.se.start_datetime = true) :=
    ⟨fun a b => by
      simp only [textLe_iff]
      exact le_total _ _⟩
  have htrans : IsTrans JoinedEvent
      (fun a b => textLe a.se.start_datetime b.se.start_datetime = true) :=
    ⟨fun a b c hab hbc => by
      simp only [textLe_iff] at hab hbc ⊢
      exact le_trans hab hbc⟩
  exact List.sorted_insertionSort _ rows

/-- C11: the events returned by the schedule handler are in non-decreasing
order of `start_datetime`: every earlier row is at most every later one, and
in particular each row is at most the next. -/
theorem schedule_sorted_by_start (st : Store) (p : JWTPayload) (q : ScheduleQuery) :
    List.Pairwise (fun a b : EventView => textLe a.start_datetime b.start_datetime = true)
        (getSchedule st p q) ∧
      List.Chain' (fun a b : EventView => textLe a.start_datetime b.start_datetime = true)
        (getSchedule st p q) ∧
      List.Chain' (fun a b : EventView => a.start_datetime ≤ b.start_datetime)
        (getSchedule st p q) := by
  have hsorted : List.Pairwise
      (fun a b : EventView => textLe a.start_datetime b.start_datetime = true)
      (getSchedule st p q) := by
    unfold getSchedule scheduleRows
    rw [List.pairwise_map]
    exact orderByStart_sorted _
  refine ⟨hsorted, hsorted.chain', ?_⟩
  exact hsorted.chain'.imp fun {a b} h => (textLe_iff a.start_datetime b.start_datetime).mp h

/-- C14: for an admin, every stored event whose start passes the supplied
bounds appears in the schedule result, whoever created it and whatever its
class or enrollments. -/
theorem admin_schedule_unrestricted (st : Store) (p : JWTPayload) (q : ScheduleQuery)
    (e : ScheduleEvent) (hrole : p.role = UserRole.admin) (he : e ∈ st.schedule_events)
    (hb : passesBounds q e) :
    appearsInSchedule st p q e ∧
      ∃ v ∈ getSchedule st p q, v.id = e.id ∧ v.start_datetime = e.start_datetime ∧
        v.is_cancelled = e.is_cancelled := by
  have happ : appearsInSchedule st p q e := by
    rw [appearsInSchedule_iff]
    refine ⟨he, ?_, hb.1, hb.2⟩
    simp only [roleScope, hrole]
  exact ⟨happ, mem_getSchedule_of_appears st p q e happ⟩

/-- Witness of C14 on the two-institution store: the admin and the event of
17 January, with no bounds supplied. -/
theorem admin_schedule_unrestricted_witness :
    appearsInSchedule campusStore dana ⟨none, none⟩ eventOther ∧
      ∃ v ∈ getSchedule campusStore dana ⟨none, none⟩, v.id = eventOther.id ∧
        v.start_datetime = eventOther.start_datetime ∧
        v.is_cancelled = eventOther.is_cancelled :=
  admin_schedule_unrestricted campusStore dana ⟨none, none⟩ eventOther rfl (by decide)
    ⟨rfl, rfl⟩

/-! ## Class and notification lists -/

theorem mem_classesFrom (st : Store) (r : JoinedClass) :
    r ∈ classesFrom st ↔
      r.c ∈ st.classes ∧ r.s ∈ st.subjects ∧ r.c.subject_id = r.s.id ∧ r.u ∈ st.users ∧
        r.c.teacher_id = r.u.id := by
  simp only [classesFrom, List.mem_flatMap, List.mem_map, List.mem_filter, beq_iff_eq]
  constructor
  · rintro ⟨c, hc, s, ⟨hs, hcs⟩, u, ⟨hu, hcu⟩, rfl⟩
    exact ⟨hc, hs, hcs, hu, hcu⟩
  · rintro ⟨hc, hs, hcs, hu, hcu⟩
    exact ⟨r.c, hc, r.s, ⟨hs, hcs⟩, r.u, ⟨hu, hcu⟩, rfl⟩

/-- C12: every class row returned by the class handler stems from a selected
row that satisfies the role predicate (an active enrollment of the student in
the class; the teacher being the principal) and, for every role, has
`is_active = 1` and a stored subject and teacher row that it references. -/
theorem classes_satisfy_role_scope (st : Store) (p : JWTPayload) :
    (∀ v ∈ getClasses st p, ∃ r ∈ classRows st p, v = selectClass r) ∧
      ∀ r ∈ classRows st p,
        (p.role = UserRole.student →
          ∃ en ∈ st.enrollments, en.student_id = p.userId ∧ en.class_id = r.c.id ∧
            en.status = "active") ∧
        (p.role = UserRole.teacher → r.c.teacher_id = p.userId) ∧
        r.c.is_active = 1 ∧ r.c ∈ st.classes ∧
        (r.s ∈ st.subjects ∧ r.s.id = r.c.subject_id) ∧
        (r.u ∈ st.users ∧ r.u.id = r.c.teacher_id) := by
  constructor
  · intro v hv
    obtain ⟨r, hr, rfl⟩ := List.mem_map.mp hv
    exact ⟨r, hr, rfl⟩
  · intro r hr
    obtain ⟨hfrom, hwhere⟩ := List.mem_filter.mp hr
    obtain ⟨hc, hs, hcs, hu, hcu⟩ := (mem_classesFrom st r).mp hfrom
    simp only [classesWhere, Bool.and_eq_true, beq_iff_eq] at hwhere
    obtain ⟨hactive, hscope⟩ := hwhere
    refine ⟨?_, ?_, hactive, hc, ⟨hs, hcs.symm⟩, ⟨hu, hcu.symm⟩⟩
    · intro hrole
      simp only [classScope, hrole, List.any_eq_true, Bool.and_eq_true, beq_iff_eq] at hscope
      obtain ⟨en, hen, ⟨hsid, hact⟩, hcid⟩ := hscope
      exact ⟨en, hen, hsid, hcid.symm, hact⟩
    · intro hrole
      simpa [classScope, hrole] using hscope

theorem mem_applyLimit {n : Int} {rows : List Notification} {x : Notification}
    (h : x ∈ applyLimit n rows) : x ∈ rows := by
  unfold applyLimit at h
  split at h
  · exact h
  · exact List.mem_of_mem_take h

theorem mem_notificationRows {parseInt : String → Option Int} {st : Store} {p : JWTPayload}
    {q : NotificationsQuery} {x : Notification} (h : x ∈ notificationRows parseInt st p q) :
    x ∈ st.notifications ∧ notificationsWhere p q x = true := by
  unfold notificationRows at h
  split at h
  · simp at h
  · have h' := mem_applyLimit h
    unfold orderByCreatedDesc at h'
    rw [(List.perm_insertionSort _ _).mem_iff, List.mem_filter] at h'
    exact h'

/-- C13: for every principal, store, `limit` and `unreadOnly`, the notification
handler answers with the 500 or with the projection of selected rows, and every
selected row is a stored notification whose `user_id` is the principal. -/
theorem notifications_only_own (parseInt : String → Option Int) (st : Store) (p : JWTPayload)
    (q : NotificationsQuery) :
    (getNotifications parseInt st p q = NotificationsResponse.failed ∨
        getNotifications parseInt st p q =
          NotificationsResponse.ok ((notificationRows parseInt st p q).map selectNotification)) ∧
      ∀ n ∈ notificationRows parseInt st p q, n ∈ st.notifications ∧ n.user_id = p.userId := by
  constructor
  · unfold getNotifications
    split
    · exact Or.inl rfl
    · exact Or.inr rfl
  · intro n hn
    obtain ⟨hmem, hwhere⟩ := mem_notificationRows hn
    simp only [notificationsWhere, Bool.and_eq_true, beq_iff_eq] at hwhere
    exact ⟨hmem, hwhere.1⟩

/-! ## Tenant scoping -/

/-- C15 as stated fails: on the two-institution store the admin of institution 1
is returned the event of 17 January, whose creator belongs to institution 2
only, and the class 20 that this creator teaches. -/
theorem admin_sees_other_institution :
    dana.institutionId = some 1 ∧
      eventTenants campusStore eventOther = [some 2] ∧
      appearsInSchedule campusStore dana ⟨none, none⟩ eventOther ∧
      (getSchedule campusStore dana ⟨none, none⟩).map (fun v => v.id) = [3, 1, 2, 4] ∧
      (getClasses campusStore dana).map (fun v => (v.id, v.teacher_email)) =
        [(10, "bob@example.edu"), (20, "erin@example.org")] := by
  refine ⟨rfl, by decide, ?_, by decide, by decide⟩
  rw [appearsInSchedule_iff]
  exact ⟨by decide, rfl, rfl, rfl⟩

theorem appearsInSchedule_unbounded_iff (st : Store) (p : JWTPayload) (e : ScheduleEvent) :
    appearsInSchedule st p ⟨none, none⟩ e ↔ e ∈ st.schedule_events ∧ roleScope st p e = true := by
  rw [appearsInSchedule_iff]
  exact ⟨fun h => ⟨h.1, h.2.1⟩, fun h => ⟨h.1, h.2, rfl, rfl⟩⟩

theorem mem_classRows_iff (st : Store) (p : JWTPayload) (r : JoinedClass) :
    r ∈ classRows st p ↔
      (r.c ∈ st.classes ∧ r.s ∈ st.subjects ∧ r.s.id = r.c.subject_id ∧ r.u ∈ st.users ∧
        r.u.id = r.c.teacher_id) ∧ r.c.is_active = 1 ∧ classScope st p r.c = true := by
  unfold classRows
  rw [List.mem_filter, mem_classesFrom]
  simp only [classesWhere, Bool.and_eq_true, beq_iff_eq]
  constructor
  · rintro ⟨⟨hc, hs, hcs, hu, hcu⟩, hact, hscope⟩
    exact ⟨⟨hc, hs, hcs.symm, hu, hcu.symm⟩, hact, hscope⟩
  · rintro ⟨⟨hc, hs, hcs, hu, hcu⟩, hact, hscope⟩
    exact ⟨⟨hc, hs, hcs.symm, hu, hcu.symm⟩, hact, hscope⟩

theorem classScope_student_iff (st : Store) (p : JWTPayload) (c : Class)
    (hrole : p.role = UserRole.student) :
    classScope st p c = true ↔
      ∃ en ∈ st.enrollments, en.student_id = p.userId ∧ en.class_id = c.id ∧
        en.status = "active" := by
  simp only [classScope, hrole, List.any_eq_true, Bool.and_eq_true, beq_iff_eq]
  constructor
  · rintro ⟨en, hen, ⟨h1, h2⟩, h3⟩
    exact ⟨en, hen, h1, h3.symm, h2⟩
  · rintro ⟨en, hen, h1, h3, h2⟩
    exact ⟨en, hen, ⟨h1, h2⟩, h3.symm⟩

/-- C15 amended: no handler reads the principal's `institutionId`: the
schedule, class and notification results are the same for any other value of
it.  With no date bounds the events returned are exactly the stored events that
satisfy the role predicate (an active enrollment of the student in the event's
class; created by the teacher or of a class the teacher teaches; no condition
for an admin).  The classes returned are exactly the active classes with a
stored subject and teacher row that satisfy the role predicate (an active
enrollment of the student; taught by the teacher; no condition for an admin).
So an admin is returned every stored event and every such class, whatever
tenant is attributed to it, also a tenant other than the principal's.  The
notifications selected are owned by the principal. -/
theorem results_ignore_institution (parseInt : String → Option Int) (st : Store)
    (p : JWTPayload) (q : ScheduleQuery) (nq : NotificationsQuery) (x : Option Nat) :
    getSchedule st { p with institutionId := x } q = getSchedule st p q ∧
      getClasses st { p with institutionId := x } = getClasses st p ∧
      getNotifications parseInt st { p with institutionId := x } nq =
        getNotifications parseInt st p nq ∧
      (∀ e : ScheduleEvent, appearsInSchedule st p ⟨none, none⟩ e ↔
        e ∈ st.schedule_events ∧
          (p.role = UserRole.student →
            ∃ en ∈ st.enrollments, en.student_id = p.userId ∧
              e.class_id = some en.class_id ∧ en.status = "active") ∧
          (p.role = UserRole.teacher →
            e.creator_id = p.userId ∨
              ∃ c ∈ st.classes, c.teacher_id = p.userId ∧ e.class_id = some c.id)) ∧
      (∀ r : JoinedClass, r ∈ classRows st p ↔
        (r.c ∈ st.classes ∧ r.s ∈ st.subjects ∧ r.s.id = r.c.subject_id ∧ r.u ∈ st.users ∧
          r.u.id = r.c.teacher_id) ∧ r.c.is_active = 1 ∧
          (p.role = UserRole.student →
            ∃ en ∈ st.enrollments, en.student_id = p.userId ∧ en.class_id = r.c.id ∧
              en.status = "active") ∧
          (p.role = UserRole.teacher → r.c.teacher_id = p.userId)) ∧
      (p.role = UserRole.admin →
        ∀ (tenantOf : ScheduleEvent → Option Nat) (e : ScheduleEvent),
          e ∈ st.schedule_events → tenantOf e ≠ p.institutionId →
            appearsInSchedule st p ⟨none, none⟩ e ∧
              ∃ v ∈ getSchedule st p ⟨none, none⟩, v.id = e.id ∧
                v.start_datetime = e.start_datetime ∧ v.is_cancelled = e.is_cancelled) ∧
      (p.role = UserRole.admin →
        ∀ (tenantOf : Class → Option Nat) (r : JoinedClass),
          r.c ∈ st.classes → r.c.is_active = 1 → r.s ∈ st.subjects → r.s.id = r.c.subject_id →
            r.u ∈ st.users → r.u.id = r.c.teacher_id → tenantOf r.c ≠ p.institutionId →
              r ∈ classRows st p ∧ selectClass r ∈ getClasses st p) ∧
      ∀ n ∈ notificationRows parseInt st p nq, n.user_id = p.userId := by
  refine ⟨rfl, rfl, rfl, ?_, ?_, ?_, ?_, ?_⟩
  · intro e
    rw [appearsInSchedule_unbounded_iff]
    cases hrole : p.role with
    | student =>
      simp only [roleScope, hrole, studentScope_iff, true_implies, reduceCtorEq, false_implies,
        and_true]
    | teacher =>
      simp only [roleScope, hrole, teacherScope_iff, true_implies, reduceCtorEq, false_implies,
        true_and]
    | admin =>
      simp only [roleScope, hrole, reduceCtorEq, false_implies, and_true]
  · intro r
    rw [mem_classRows_iff]
    cases hrole : p.role with
    | student =>
      simp only [classScope_student_iff st p r.c hrole, true_implies, reduceCtorEq,
        false_implies, and_true]
    | teacher =>
      simp only [classScope, hrole, beq_iff_eq, true_implies, reduceCtorEq, false_implies,
        true_and]
    | admin =>
      simp only [classScope, hrole, reduceCtorEq, false_implies, and_true]
  · intro hrole _ e he _
    have happ : appearsInSchedule st p ⟨none, none⟩ e := by
      rw [appearsInSchedule_unbounded_iff]
      refine ⟨he, ?_⟩
      simp only [roleScope, hrole]
    exact ⟨happ, mem_getSchedule_of_appears st p _ e happ⟩
  · intro hrole _ r hc hact hs hsid hu huid _
    have hmem : r ∈ classRows st p := by
      rw [mem_classRows_iff]
      refine ⟨⟨hc, hs, hsid, hu, huid⟩, hact, ?_⟩
      simp only [classScope, hrole]
    exact ⟨hmem, List.mem_map_of_mem _ hmem⟩
  · intro n hn
    have hwhere := (mem_notificationRows hn).2
    simp only [notificationsWhere, Bool.and_eq_true, beq_iff_eq] at hwhere
    exact hwhere.1

/-! ## The user context of the chat handler -/

theorem some_mem_leftJoin {α : Type} (t : List α) (p : α → Bool) (a : α) :
    some a ∈ leftJoin t p ↔ a ∈ t ∧ p a = true := by
  unfold leftJoin
  split
  · rename_i h
    have hnot : a ∉ t.filter p := by rw [h]; exact List.not_mem_nil a
    simp only [List.mem_singleton, reduceCtorEq, false_iff]
    exact fun hmem => hnot (List.mem_filter.mpr hmem)
  · rename_i m ms h
    rw [← h, List.mem_map]
    constructor
    · rintro ⟨b, hb, hba⟩
      cases hba
      exact List.mem_filter.mp hb
    · intro hmem
      exact ⟨a, List.mem_filter.mpr hmem, rfl⟩

theorem mem_contextRows (st : Store) (now : String) (userId : Nat) (r : ContextRow) :
    r ∈ contextRows st now userId ↔
      r.u ∈ st.users ∧ r.u.id = userId ∧
        r.e ∈ leftJoin st.enrollments
          (fun e => r.u.id == e.student_id && e.status == "active") ∧
        r.se ∈ leftJoin st.schedule_events (isUpcoming now) := by
  simp only [contextRows, contextFrom, List.mem_filter, List.mem_flatMap, List.mem_map,
    beq_iff_eq]
  constructor
  · rintro ⟨⟨u, hu, e, he, se, hse, rfl⟩, hid⟩
    exact ⟨hu, hid, he, hse⟩
  · rintro ⟨hu, hid, he, hse⟩
    exact ⟨⟨r.u, hu, r.e, he, r.se, hse, rfl⟩, hid⟩

theorem dedup_length_congr {l l' : List Nat} (h : ∀ a, a ∈ l ↔ a ∈ l') :
    l.dedup.length = l'.dedup.length := by
  rw [← List.card_toFinset, ← List.card_toFinset]
  exact congrArg Finset.card (List.toFinset.ext h)

/-- For an existing user the context query yields a row, whose two counts are
the distinct counts over the rows of the group. -/
theorem userContext_of_exists (st : Store) (now : String) (userId : Nat)
    (hu : ∃ u ∈ st.users, u.id = userId) :
    ∃ ctx, userContext st now userId = some ctx ∧
      ctx.enrolled_classes =
        countDistinct ((contextRows st now userId).map fun x => x.e.map fun e => e.class_id) ∧
      ctx.upcoming_events =
        countDistinct ((contextRows st now userId).map fun x => x.se.map fun se => se.id) := by
  obtain ⟨u, hmem, hid⟩ := hu
  obtain ⟨e, he⟩ := List.exists_mem_of_ne_nil _
    (leftJoin_ne_nil st.enrollments (fun e => u.id == e.student_id && e.status == "active"))
  obtain ⟨se, hse⟩ := List.exists_mem_of_ne_nil _
    (leftJoin_ne_nil st.schedule_events (isUpcoming now))
  have hrow : ContextRow.mk u e se ∈ contextRows st now userId :=
    (mem_contextRows st now userId _).mpr ⟨hmem, hid, he, hse⟩
  unfold userContext
  cases hrows : contextRows st now userId with
  | nil => rw [hrows] at hrow; exact absurd hrow (List.not_mem_nil _)
  | cons r rs => exact ⟨_, rfl, rfl, rfl⟩

/-- C16: for an existing user the context query yields a row whose
`enrolled_classes` is the number of distinct class ids among the user's
enrollments with status `'active'`, whatever the stored events are. -/
theorem enrolled_count_distinct_active (st : Store) (now : String) (userId : Nat)
    (hu : ∃ u ∈ st.users, u.id = userId) :
    ∃ ctx, userContext st now userId = some ctx ∧
      ctx.enrolled_classes =
        ((st.enrollments.filter fun e => e.student_id == userId && e.status == "active").map
          fun e => e.class_id).dedup.length := by
  obtain ⟨ctx, hctx, henr, _⟩ := userContext_of_exists st now userId hu
  refine ⟨ctx, hctx, ?_⟩
  rw [henr]
  unfold countDistinct
  apply dedup_length_congr
  intro c
  simp only [List.mem_filterMap, List.mem_map, List.mem_filter, Bool.and_eq_true, beq_iff_eq]
  constructor
  · rintro ⟨x, ⟨r, hr, rfl⟩, hx⟩
    obtain ⟨_, hid, he, _⟩ := (mem_contextRows st now userId r).mp hr
    cases hre : r.e with
    | none => rw [hre] at hx; exact Option.noConfusion hx
    | some e =>
      rw [hre] at hx he
      obtain ⟨hmem, hp⟩ := (some_mem_leftJoin _ _ e).mp he
      simp only [Bool.and_eq_true, beq_iff_eq] at hp
      exact ⟨e, ⟨hmem, by rw [← hp.1, hid], hp.2⟩, Option.some.inj hx⟩
  · rintro ⟨e, ⟨hmem, hsid, hact⟩, rfl⟩
    obtain ⟨u, hu', hid⟩ := hu
    obtain ⟨se, hse⟩ := List.exists_mem_of_ne_nil _
      (leftJoin_ne_nil st.schedule_events (isUpcoming now))
    refine ⟨some e.class_id, ⟨ContextRow.mk u (some e) se, ?_, rfl⟩, rfl⟩
    rw [mem_contextRows]
    refine ⟨hu', hid, ?_, hse⟩
    rw [some_mem_leftJoin]
    refine ⟨hmem, ?_⟩
    simp only [Bool.and_eq_true, beq_iff_eq]
    exact ⟨by rw [hsid]; exact hid, hact⟩

/-- Witness of C16 on the two-institution store: user 1 has one active and one
dropped enrollment, and the count is 1. -/
theorem enrolled_count_distinct_active_witness :
    ∃ ctx, userContext campusStore "2024-01-15 12:00:00" 1 = some ctx ∧
      ctx.enrolled_classes =
        ((campusStore.enrollments.filter fun e => e.student_id == 1 && e.status == "active").map
          fun e => e.class_id).dedup.length :=
  enrolled_count_distinct_active campusStore "2024-01-15 12:00:00" 1 ⟨userAlice, by decide, rfl⟩

/-- An event is counted as upcoming exactly when `now` is strictly below its
start in the order of texts. -/
theorem isUpcoming_iff (now : String) (se : ScheduleEvent) :
    isUpcoming now se = true ↔ now < se.start_datetime := by
  unfold isUpcoming
  rw [Bool.not_eq_true', ← Bool.not_eq_true, textLe_iff, not_le]

theorem filter_isUpcoming (now : String) (events : List ScheduleEvent) :
    events.filter (isUpcoming now) =
      events.filter fun se => decide (now < se.start_datetime) := by
  apply List.filter_congr
  intro se _
  by_cases h : now < se.start_datetime
  · rw [(isUpcoming_iff now se).mpr h, decide_eq_true h]
  · rw [decide_eq_false h]
    apply Bool.eq_false_iff.mpr
    intro hup
    exact h ((isUpcoming_iff now se).mp hup)

/-- C17: for an existing user the context query yields a row whose
`upcoming_events` is the number of distinct ids among all stored events whose
`start_datetime` is strictly after `now` (an event that starts at `now` is not
counted), and, event ids being distinct, the number of those events; neither
the principal nor the enrollments enter the number. -/
theorem upcoming_count_all_events (st : Store) (now : String) (userId : Nat)
    (hu : ∃ u ∈ st.users, u.id = userId) :
    ∃ ctx, userContext st now userId = some ctx ∧
      ctx.upcoming_events =
        ((st.schedule_events.filter fun se => decide (now < se.start_datetime)).map
          fun se => se.id).dedup.length ∧
      ((st.schedule_events.map fun se => se.id).Nodup →
        ctx.upcoming_events =
          (st.schedule_events.filter fun se => decide (now < se.start_datetime)).length) := by
  obtain ⟨ctx, hctx, _, hup⟩ := userContext_of_exists st now userId hu
  have hcount : ctx.upcoming_events =
      ((st.schedule_events.filter (isUpcoming now)).map fun se => se.id).dedup.length := by
    rw [hup]
    unfold countDistinct
    apply dedup_length_congr
    intro i
    simp only [List.mem_filterMap, List.mem_map, List.mem_filter]
    constructor
    · rintro ⟨x, ⟨r, hr, rfl⟩, hx⟩
      obtain ⟨_, _, _, hse⟩ := (mem_contextRows st now userId r).mp hr
      cases hrse : r.se with
      | none => rw [hrse] at hx; exact Option.noConfusion hx
      | some se =>
        rw [hrse] at hx hse
        exact ⟨se, (some_mem_leftJoin _ _ se).mp hse, Option.some.inj hx⟩
    · rintro ⟨se, hse, rfl⟩
      obtain ⟨u, hu', hid⟩ := hu
      obtain ⟨e, he⟩ := List.exists_mem_of_ne_nil _
        (leftJoin_ne_nil st.enrollments
          (fun e => u.id == e.student_id && e.status == "active"))
      refine ⟨some se.id, ⟨ContextRow.mk u e (some se), ?_, rfl⟩, rfl⟩
      rw [mem_contextRows]
      exact ⟨hu', hid, he, (some_mem_leftJoin _ _ se).mpr hse⟩
  rw [filter_isUpcoming] at hcount
  refine ⟨ctx, hctx, hcount, ?_⟩
  intro hnodup
  rw [hcount]
  have hsub : ((st.schedule_events.filter fun se => decide (now < se.start_datetime)).map
      fun se => se.id).Nodup :=
    hnodup.sublist ((List.filter_sublist st.schedule_events).map _)
  rw [hsub.dedup, List.length_map]

/-- Witness of C17 on the two-institution store.  At noon of 15 January three of
the four events are still to start, for the student as for anyone; at 09:00:00
of that day, the very start of the first event, the count is three as well: the
event that starts at `now` is not counted. -/
theorem upcoming_count_all_events_witness :
    (∃ ctx, userContext campusStore "2024-01-15 12:00:00" 1 = some ctx ∧
      ctx.upcoming_events =
        ((campusStore.schedule_events.filter
          fun se => decide ("2024-01-15 12:00:00" < se.start_datetime)).map
            fun se => se.id).dedup.length ∧
      ((campusStore.schedule_events.map fun se => se.id).Nodup →
        ctx.upcoming_events =
          (campusStore.schedule_events.filter
            fun se => decide ("2024-01-15 12:00:00" < se.start_datetime)).length)) ∧
      (userContext campusStore "2024-01-15 12:00:00" 1).map (fun c => c.upcoming_events) =
        some 3 ∧
      (userContext campusStore "2024-01-15 09:00:00" 1).map (fun c => c.upcoming_events) =
        some 3 ∧
      (userContext campusStore "2024-01-15 08:59:59" 1).map (fun c => c.upcoming_events) =
        some 4 ∧
      (userContext campusStore "2024-01-15 12:00:00" 6).map (fun c => c.upcoming_events) =
        some 3 :=
  ⟨upcoming_count_all_events campusStore "2024-01-15 12:00:00" 1 ⟨userAlice, by decide, rfl⟩,
    by decide, by decide, by decide, by decide⟩

/-! ## Chat: conversation resolution and appended turns -/

theorem lt_nextId_of_mem (ids : List Nat) (x : Nat) (hx : x ∈ ids) : x < nextId ids := by
  unfold nextId
  induction ids with
  | nil => exact absurd hx (List.not_mem_nil x)
  | cons a l ih =>
    simp only [List.foldr_cons]
    rcases List.mem_cons.mp hx with rfl | hmem
    · exact Nat.lt_succ_of_le (Nat.le_max_left _ _)
    · exact Nat.lt_of_lt_of_le (ih hmem) (Nat.succ_le_succ (Nat.le_max_right _ _))

theorem resolveConversation_new (nowIso : String) (p : JWTPayload) (req : ChatRequest)
    (st : Store) (hid : req.conversationId = none ∨ req.conversationId = some 0) :
    resolveConversation nowIso p req st =
      (nextId (st.chat_conversations.map fun c => c.id),
        { st with
          chat_conversations := st.chat_conversations ++
            [{ id := nextId (st.chat_conversations.map fun c => c.id), user_id := p.userId,
               title := conversationTitle req.message,
               context := conversationContext nowIso }] }) := by
  rcases hid with h | h <;> simp [resolveConversation, h]

theorem resolveConversation_chat_messages (nowIso : String) (p : JWTPayload)
    (req : ChatRequest) (st : Store) :
    (resolveConversation nowIso p req st).2.chat_messages = st.chat_messages := by
  unfold resolveConversation
  split <;> rfl

/-- A 200 of the chat handler: the message is non-empty, the model returned the
text of the response, and the store is the resolved one with the two messages
inserted. -/
theorem postChat_ok_inv (nowIso : String) (ai : Option String) (p : JWTPayload)
    (req : ChatRequest) (st : Store) (r : String) (cid : Nat) (st' : Store)
    (h : postChat nowIso ai p req st = (ChatResponse.ok r cid, st')) :
    req.message ≠ "" ∧ ai = some r ∧ cid = (resolveConversation nowIso p req st).1 ∧
      st' = insertMessage cid "assistant" r
        (insertMessage cid "user" req.message (resolveConversation nowIso p req st).2) := by
  unfold postChat at h
  split at h
  · exact absurd (congrArg Prod.fst h) (by simp)
  · rename_i hmsg
    cases ai with
    | none => exact absurd (congrArg Prod.fst h) (by simp)
    | some a =>
      simp only [Prod.mk.injEq, ChatResponse.ok.injEq] at h
      obtain ⟨⟨ha, hcid⟩, hst⟩ := h
      subst ha
      subst hcid
      exact ⟨hmsg, rfl, rfl, hst.symm⟩

/-- C18 as stated fails: on the sample store the owner of conversation 1
supplies the conversation id `0`; the handler takes it for absent, creates a
second conversation and answers with the new id 2, not with the id supplied. -/
theorem supplied_zero_id_opens_conversation :
    postChat "2024-01-15T12:00:00.000Z" (some "Hello") alice ⟨"Hi", some 0⟩ demoStore =
        (ChatResponse.ok "Hello" 2,
          { demoStore with
            chat_conversations := demoStore.chat_conversations ++
              [{ id := 2, user_id := 1, title := "Hi...",
                 context := conversationContext "2024-01-15T12:00:00.000Z" }]
            chat_messages := [⟨2, "user", "Hi", "text"⟩, ⟨2, "assistant", "Hello", "text"⟩] }) ∧
      (postChat "2024-01-15T12:00:00.000Z" (some "Hello") alice ⟨"Hi", some 0⟩
        demoStore).2.chat_conversations.length = demoStore.chat_conversations.length + 1 := by
  refine ⟨by decide, by decide⟩

/-- C18 amended: for a chat request answered with the 200, if no conversation id
or the id `0` is supplied, exactly one conversation is added, owned by the
principal, with an id that no earlier conversation has and that the response
carries; if a non-zero id is supplied, no conversation is added and the
response carries the supplied id. -/
theorem chat_conversation_resolution (nowIso : String) (ai : Option String) (p : JWTPayload)
    (req : ChatRequest) (st : Store) (r : String) (cid : Nat) (st' : Store)
    (h : postChat nowIso ai p req st = (ChatResponse.ok r cid, st')) :
    ((req.conversationId = none ∨ req.conversationId = some 0) →
        ∃ c, st'.chat_conversations = st.chat_conversations ++ [c] ∧ c.user_id = p.userId ∧
          c.id = cid ∧ ∀ c' ∈ st.chat_conversations, c'.id ≠ cid) ∧
      (∀ i, req.conversationId = some i → i ≠ 0 →
        st'.chat_conversations = st.chat_conversations ∧ cid = i) := by
  obtain ⟨_, _, hcid, hst⟩ := postChat_ok_inv nowIso ai p req st r cid st' h
  constructor
  · intro hnew
    rw [resolveConversation_new nowIso p req st hnew] at hcid hst
    simp only at hcid hst
    refine ⟨_, by rw [hst]; rfl, rfl, hcid.symm, ?_⟩
    intro c' hc' heq
    have hlt := lt_nextId_of_mem (st.chat_conversations.map fun c => c.id) c'.id
      (List.mem_map_of_mem _ hc')
    rw [heq, hcid] at hlt
    exact Nat.lt_irrefl _ hlt
  · intro i hi hpos
    rw [resolveConversation_supplied nowIso p req st i hi hpos] at hcid hst
    simp only at hcid hst
    exact ⟨by rw [hst]; rfl, hcid⟩

/-- Witness of the amended C18 on the sample store: a first message with no
conversation id opens conversation 2. -/
theorem chat_conversation_resolution_witness :
    (((⟨"Hi", none⟩ : ChatRequest).conversationId = none ∨
        (⟨"Hi", none⟩ : ChatRequest).conversationId = some 0) →
        ∃ c, (postChat "2024-01-15T12:00:00.000Z" (some "Hello") alice ⟨"Hi", none⟩
              demoStore).2.chat_conversations = demoStore.chat_conversations ++ [c] ∧
          c.user_id = alice.userId ∧ c.id = 2 ∧
          ∀ c' ∈ demoStore.chat_conversations, c'.id ≠ 2) ∧
      (∀ i, (⟨"Hi", none⟩ : ChatRequest).conversationId = some i → i ≠ 0 →
        (postChat "2024-01-15T12:00:00.000Z" (some "Hello") alice ⟨"Hi", none⟩
            demoStore).2.chat_conversations = demoStore.chat_conversations ∧ 2 = i) :=
  chat_conversation_resolution "2024-01-15T12:00:00.000Z" (some "Hello") alice ⟨"Hi", none⟩
    demoStore "Hello" 2
    (postChat "2024-01-15T12:00:00.000Z" (some "Hello") alice ⟨"Hi", none⟩ demoStore).2 rfl

/-- C19: for a chat request answered with the 200, the turns of the resolved
conversation afterwards are its turns before, in the same order, followed by
the user turn with the request's message and the assistant turn with the
returned response; the turns of every other conversation are as before. -/
theorem chat_appends_two_turns (nowIso : String) (ai : Option String) (p : JWTPayload)
    (req : ChatRequest) (st : Store) (r : String) (cid : Nat) (st' : Store)
    (h : postChat nowIso ai p req st = (ChatResponse.ok r cid, st')) :
    turnsOf st' cid =
        turnsOf st cid ++ [⟨cid, "user", req.message, "text"⟩, ⟨cid, "assistant", r, "text"⟩] ∧
      (∀ c, c ≠ cid → turnsOf st' c = turnsOf st c) ∧
      st'.chat_messages =
        st.chat_messages ++
          [⟨cid, "user", req.message, "text"⟩, ⟨cid, "assistant", r, "text"⟩] := by
  obtain ⟨_, _, _, hst⟩ := postChat_ok_inv nowIso ai p req st r cid st' h
  have hmsgs : st'.chat_messages =
      st.chat_messages ++
        [⟨cid, "user", req.message, "text"⟩, ⟨cid, "assistant", r, "text"⟩] := by
    rw [hst]
    simp only [insertMessage, resolveConversation_chat_messages, List.append_assoc,
      List.singleton_append]
  refine ⟨?_, ?_, hmsgs⟩
  · simp [turnsOf, hmsgs, List.filter_append, List.filter_cons]
  · intro c hc
    have hne : ¬ cid = c := fun heq => hc heq.symm
    simp [turnsOf, hmsgs, List.filter_append, List.filter_cons, hne]

/-- Witness of C19 on the sample store: a message sent into conversation 1 by
its owner. -/
theorem chat_appends_two_turns_witness :
    turnsOf (postChat "2024-01-15T12:00:00.000Z" (some "Hello") alice ⟨"Hi", some 1⟩
          demoStore).2 1 =
        turnsOf demoStore 1 ++ [⟨1, "user", "Hi", "text"⟩, ⟨1, "assistant", "Hello", "text"⟩] ∧
      (∀ c, c ≠ 1 →
        turnsOf (postChat "2024-01-15T12:00:00.000Z" (some "Hello") alice ⟨"Hi", some 1⟩
          demoStore).2 c = turnsOf demoStore c) ∧
      (postChat "2024-01-15T12:00:00.000Z" (some "Hello") alice ⟨"Hi", some 1⟩
          demoStore).2.chat_messages =
        demoStore.chat_messages ++
          [⟨1, "user", "Hi", "text"⟩, ⟨1, "assistant", "Hello", "text"⟩] :=
  chat_appends_two_turns "2024-01-15T12:00:00.000Z" (some "Hello") alice ⟨"Hi", some 1⟩
    demoStore "Hello" 1 _ rfl

/-! ## Login -/

theorem mem_loginRows (st : Store) (email : String) (u : User) (ui : Option UserInstitution)
    (h : (u, ui) ∈ loginRows st email) : u ∈ st.users ∧ u.email = email ∧ u.is_active = 1 := by
  simp only [loginRows, List.mem_filter, List.mem_flatMap, List.mem_map, Bool.and_eq_true,
    beq_iff_eq] at h
  obtain ⟨⟨u', hu', ui', _, heq⟩, hemail, hactive⟩ := h
  cases heq
  exact ⟨hu', hemail, hactive⟩

theorem loginRows_ne_nil (st : Store) (email : String) (u : User) (hu : u ∈ st.users)
    (hemail : u.email = email) (hactive : u.is_active = 1) : loginRows st email ≠ [] := by
  obtain ⟨ui, hui⟩ := List.exists_mem_of_ne_nil _
    (leftJoin_ne_nil st.user_institutions (fun ui => u.id == ui.user_id))
  have hmem : (u, ui) ∈ loginRows st email := by
    simp only [loginRows, List.mem_filter, List.mem_flatMap, List.mem_map, Bool.and_eq_true,
      beq_iff_eq]
    exact ⟨⟨u, hu, ui, hui, rfl⟩, hemail, hactive⟩
  exact List.ne_nil_of_mem hmem

/-- With a non-empty email and password the handler answers the 401 when the
login query has no row and the 500 when it has one. -/
theorem postLogin_truthy (st : Store) (e pw : String) (he : e ≠ "") (hpw : pw ≠ "") :
    postLogin st ⟨some e, some pw⟩ =
      match (loginRows st e).head? with
      | none => LoginResponse.invalidCredentials
      | some _ => LoginResponse.loginFailed := by
  have hcond : (!truthy (some e) || !truthy (some pw)) = false := by
    simp [truthy, he, hpw]
  unfold postLogin
  simp only [hcond, Bool.false_eq_true, if_false, contextJwtSign]
  cases (loginRows st e).head? with
  | none => rfl
  | some r => cases r; rfl

theorem postLogin_falsy (st : Store) (req : LoginRequest)
    (h : truthy req.email = false ∨ truthy req.password = false) :
    postLogin st req = LoginResponse.required := by
  unfold postLogin
  rcases h with h | h <;> simp [h]

/-- The login result is the same for any two non-empty passwords: the 400 for
an absent or empty email, the 401 when no active user has the email, and the
500 when one has. -/
theorem postLogin_password_irrelevant (st : Store) (email : Option String) (p₁ p₂ : String)
    (h₁ : p₁ ≠ "") (h₂ : p₂ ≠ "") :
    postLogin st ⟨email, some p₁⟩ = postLogin st ⟨email, some p₂⟩ := by
  cases email with
  | none =>
    rw [postLogin_falsy st ⟨none, some p₁⟩ (Or.inl rfl),
      postLogin_falsy st ⟨none, some p₂⟩ (Or.inl rfl)]
  | some e =>
    by_cases he : e = ""
    · subst he
      rw [postLogin_falsy st ⟨some "", some p₁⟩ (Or.inl (by simp [truthy])),
        postLogin_falsy st ⟨some "", some p₂⟩ (Or.inl (by simp [truthy]))]
    · rw [postLogin_truthy st e p₁ he h₁, postLogin_truthy st e p₂ he h₂]

/-- No login is answered with a token: with a non-empty email and password, an
active user with the email gets the 500 `Login failed`, and the 401 is given
exactly when there is no such user. -/
theorem postLogin_existing_user (st : Store) (e pw : String) (he : e ≠ "") (hpw : pw ≠ "") :
    ((∃ u ∈ st.users, u.email = e ∧ u.is_active = 1) →
        postLogin st ⟨some e, some pw⟩ = LoginResponse.loginFailed) ∧
      ((¬ ∃ u ∈ st.users, u.email = e ∧ u.is_active = 1) →
        postLogin st ⟨some e, some pw⟩ = LoginResponse.invalidCredentials) := by
  rw [postLogin_truthy st e pw he hpw]
  constructor
  · rintro ⟨u, hu, hem, hact⟩
    cases hrows : loginRows st e with
    | nil => exact absurd hrows (loginRows_ne_nil st e u hu hem hact)
    | cons r rs => rfl
  · intro hnone
    cases hrows : loginRows st e with
    | nil => rfl
    | cons r rs =>
      obtain ⟨u, ui⟩ := r
      have hmem : (u, ui) ∈ loginRows st e := by rw [hrows]; exact List.mem_cons_self _ _
      obtain ⟨hu, hem, hact⟩ := mem_loginRows st e u ui hmem
      exact absurd ⟨u, hu, hem, hact⟩ hnone

/-- C20, evaluated where the code departs from it: on the two-institution store
user 1 is active with the email `alice@example.edu`; a login with that email is
answered with the 500 `Login failed`, for the password `secret` as for the
password `wrong`, and not with a token and the profile, because `c.jwt.sign`
throws. -/
theorem login_existing_user_fails :
    (∃ u ∈ campusStore.users, u.email = "alice@example.edu" ∧ u.is_active = 1) ∧
      postLogin campusStore ⟨some "alice@example.edu", some "secret"⟩ =
        LoginResponse.loginFailed ∧
      postLogin campusStore ⟨some "alice@example.edu", some "wrong"⟩ =
        LoginResponse.loginFailed ∧
      postLogin campusStore ⟨some "nobody@example.edu", some "wrong"⟩ =
        LoginResponse.invalidCredentials ∧
      postLogin campusStore ⟨some "alice@example.edu", some ""⟩ = LoginResponse.required := by
  refine ⟨⟨userAlice, by decide, rfl, rfl⟩, by decide, by decide, by decide, by decide⟩

end AlphaClassBot
